import Mathlib

/-!
# Astro Terraform provider: schema builders and the clusters response mapper

A shallow embedding of

* `internal/provider/models/clusters.go` (`ClustersDataSource.ReadFromResponse`), and
* `internal/provider/schemas/deployment.go` (the deployment, worker-queue and
  environment-variable schema builders),

followed by the properties established about them.
-/

namespace Astro

/-! ## Diagnostics (`diag.Diagnostics`) -/

/-- Severity of one diagnostic (`diag.SeverityError`, `diag.SeverityWarning`). -/
inductive Severity where
  | Error
  | Warning
deriving DecidableEq, Repr

/-- One diagnostic record: a severity and its summary line. -/
structure Diagnostic where
  severity : Severity
  summary : String
deriving DecidableEq, Repr

/-- The collection `diag.Diagnostics`; the Go `nil` value is the empty list. -/
abbrev Diagnostics := List Diagnostic

/-- The method `Diagnostics.HasError`: some record has error severity. -/
def HasError (diags : Diagnostics) : Bool :=
  diags.any (fun d => decide (d.severity = Severity.Error))

/-! ## `models/clusters.go` -/

/-- The framework value `types.List`: null (the Go zero value), unknown, or a
known list of element values. -/
inductive TList (γ : Type) where
  | null
  | unknown
  | known (elements : List γ)
deriving DecidableEq, Repr

/-- The struct `ClustersDataSource`; `γ` is `attr.Value`, `σ` is `types.String`. -/
structure ClustersDataSource (γ σ : Type) where
  Clusters : TList γ
  CloudProvider : σ
  Names : TList γ
deriving DecidableEq, Repr

/-- The three callees of `ClustersDataSource.ReadFromResponse` that live outside
`clusters.go`, taken as parameters. `α` is `platform.Cluster`, `β` is the model
struct `Cluster`, `γ` is `attr.Value`.

* `ClusterReadFromResponse c` is `singleClusterData.ReadFromResponse(ctx, &c)` run on a
  fresh zero `Cluster`: the struct afterwards and the returned diagnostics;
* `ObjectValueFrom s` is
  `types.ObjectValueFrom(ctx, schemas.ClustersElementAttributeTypes(), s)`;
* `ListValue vs` is
  `types.ListValue(types.ObjectType{AttrTypes: schemas.ClustersElementAttributeTypes()}, vs)`. -/
structure Collaborators (α β γ : Type) where
  ClusterReadFromResponse : α → β × Diagnostics
  ObjectValueFrom : β → γ × Diagnostics
  ListValue : List γ → TList γ × Diagnostics

/-- The `for i, deployment := range clusters` loop of `ReadFromResponse`, started at
index `i` with the slice `values`: an early `return diags` is `Except.error diags`,
falling out of the loop is `Except.ok values`. -/
def readLoop {α β γ : Type} (ext : Collaborators α β γ) :
    List α → Nat → List γ → Except Diagnostics (List γ)
  | [], _, values => Except.ok values
  | deployment :: rest, i, values =>
    let r := ext.ClusterReadFromResponse deployment
    if HasError r.2 then Except.error r.2
    else
      let o := ext.ObjectValueFrom r.1
      if HasError o.2 then Except.error o.2
      else readLoop ext rest (i + 1) (values.set i o.1)

/-- The method `(*ClustersDataSource).ReadFromResponse`: the receiver after the call
and the returned diagnostics. `values` starts as `make([]attr.Value, len(clusters))`,
a slice of `nil` interface values (`default`). The assignment
`data.Clusters, diags = types.ListValue(...)` writes the field before `diags` is
inspected. -/
def ClustersDataSource.ReadFromResponse {α β γ σ : Type} [Inhabited γ]
    (ext : Collaborators α β γ) (data : ClustersDataSource γ σ) (clusters : List α) :
    ClustersDataSource γ σ × Diagnostics :=
  match readLoop ext clusters 0 (List.replicate clusters.length default) with
  | Except.error diags => (data, diags)
  | Except.ok values =>
    let r := ext.ListValue values
    let data1 : ClustersDataSource γ σ :=
      { Clusters := r.1, CloudProvider := data.CloudProvider, Names := data.Names }
    if HasError r.2 then (data1, r.2) else (data1, [])

/-- The object value one input record is converted to: element mapping followed by
object conversion. -/
def convert {α β γ : Type} (ext : Collaborators α β γ) (c : α) : γ :=
  (ext.ObjectValueFrom (ext.ClusterReadFromResponse c).1).1

/-- The element mapping of record `c` reports an error. -/
def mappingFails {α β γ : Type} (ext : Collaborators α β γ) (c : α) : Bool :=
  HasError (ext.ClusterReadFromResponse c).2

/-- The object conversion of the struct mapped from record `c` reports an error. -/
def conversionFails {α β γ : Type} (ext : Collaborators α β γ) (c : α) : Bool :=
  HasError (ext.ObjectValueFrom (ext.ClusterReadFromResponse c).1).2

/-- The list assembly of `values` reports an error. -/
def listFails {α β γ : Type} (ext : Collaborators α β γ) (values : List γ) : Bool :=
  HasError (ext.ListValue values).2

/-- List assembly of `values` succeeds: it reports no error and hands back the known
list holding exactly `values`. -/
def ListAssemblySucceeds {α β γ : Type} (ext : Collaborators α β γ) (values : List γ) : Prop :=
  listFails ext values = false ∧ (ext.ListValue values).1 = TList.known values

/-- The wording of the specification, "the diagnostics of the first failing step of
one element, element mapping before object conversion": `none` when neither step of
record `c` reports an error. -/
def elementFailure {α β γ : Type} (ext : Collaborators α β γ) (c : α) : Option Diagnostics :=
  if mappingFails ext c then some (ext.ClusterReadFromResponse c).2
  else if conversionFails ext c then
    some (ext.ObjectValueFrom (ext.ClusterReadFromResponse c).1).2
  else none

/-- The wording of the specification, "the first failing step in input order: the
lowest-index failing element, list assembly last". -/
def firstFailingStep {α β γ : Type} (ext : Collaborators α β γ) (clusters : List α) :
    Option Diagnostics :=
  match clusters.findSome? (elementFailure ext) with
  | some diags => some diags
  | none =>
    if listFails ext (clusters.map (convert ext)) then
      some (ext.ListValue (clusters.map (convert ext))).2
    else none

/-! ### A concrete instance of the collaborators -/

/-- The behaviour of the framework function `types.ListValue` (terraform-plugin-framework,
`basetypes.NewListValue`): one error per element whose type differs from the element
type; with an error the result is the unknown list, otherwise the known list of the
given elements. `elementTypeEqual e` stands for `elementType.Equal(e.Type(ctx))`. -/
def ListValue {γ : Type} (elementTypeEqual : γ → Bool) (elements : List γ) :
    TList γ × Diagnostics :=
  let diags : Diagnostics :=
    (elements.filter (fun e => !elementTypeEqual e)).map
      (fun _ => { severity := Severity.Error, summary := "Invalid List Element Type" })
  if HasError diags then (TList.unknown, diags) else (TList.known elements, [])

/-- A small instance used to run the mapper: records are numbers, record `0` fails
element mapping, a struct `13` fails object conversion, an object value is `some n`
(`none` is the `nil` interface value), and list assembly is the framework's for the
element type of the `some` objects. -/
def sampleCollaborators : Collaborators Nat Nat (Option Nat) where
  ClusterReadFromResponse := fun c =>
    if c = 0 then (0, [{ severity := Severity.Error, summary := "Error reading cluster" }])
    else (c, [])
  ObjectValueFrom := fun s =>
    if s = 13 then (none, [{ severity := Severity.Error, summary := "Value Conversion Error" }])
    else (some (s * 10), [])
  ListValue := ListValue (fun e => e.isSome)

/-- A receiver as the data-source Read callback holds it before the call: `clusters`
is null, the query parameters are set. -/
def sampleData : ClustersDataSource (Option Nat) String where
  Clusters := TList.null
  CloudProvider := "AWS"
  Names := TList.known [some 1, some 2]

/-- The collaborators `ext2` answer as `ext` does on record `c`: the same element
mapping and the same object conversion of the mapped struct. -/
def AgreeOn {α β γ : Type} (ext ext2 : Collaborators α β γ) (c : α) : Prop :=
  ext2.ClusterReadFromResponse c = ext.ClusterReadFromResponse c ∧
  ext2.ObjectValueFrom (ext.ClusterReadFromResponse c).1 =
    ext.ObjectValueFrom (ext.ClusterReadFromResponse c).1

/-- A second instance: as `sampleCollaborators` on records below `50`, failing element
mapping from `50` on, and with a list assembly that always fails. -/
def otherCollaborators : Collaborators Nat Nat (Option Nat) where
  ClusterReadFromResponse := fun c =>
    if 50 ≤ c then (c, [{ severity := Severity.Error, summary := "Error reading cluster" }])
    else sampleCollaborators.ClusterReadFromResponse c
  ObjectValueFrom := sampleCollaborators.ObjectValueFrom
  ListValue := fun _ =>
    (TList.null, [{ severity := Severity.Error, summary := "Invalid List Element Type" }])

/-! ## Go maps and `lo.Assign` -/

/-- A Go `map[string]V`, kept as the list of its entries. A map literal lists each
key once. The order of the entries carries no meaning: two maps are the same map
when every key looks up the same in both (`SameMap`). -/
abbrev GoMap (V : Type) := List (String × V)

/-- The keys of a map. -/
def mapKeys {V : Type} (m : GoMap V) : List String := m.map Prod.fst

/-- The size `len(m)` of a map. -/
def mapLen {V : Type} (m : GoMap V) : Nat := m.length

/-- The lookup `m[k]` with its presence flag. -/
def mapGet {V : Type} : GoMap V → String → Option V
  | [], _ => none
  | (k1, v) :: rest, k => if k1 = k then some v else mapGet rest k

/-- The store `out[k] = v`: replaces the entry of `k` when there is one, adds an
entry otherwise. -/
def mapSet {V : Type} : GoMap V → String → V → GoMap V
  | [], k, v => [(k, v)]
  | (k1, v1) :: rest, k, v =>
    if k1 = k then (k, v) :: rest else (k1, v1) :: mapSet rest k v

/-- The inner loop of `lo.Assign`: `for k := range m { out[k] = m[k] }`. Go ranges
over `m` in no fixed order; the keys of `m` being distinct, the map that results is the
same for every order, and the entries are taken here in the order the literal lists them. -/
def assignInto {V : Type} (out m : GoMap V) : GoMap V :=
  m.foldl (fun o kv => mapSet o kv.1 kv.2) out

/-- The function `lo.Assign` of `github.com/samber/lo`, which "merges multiple maps
from left to right": a fresh map is made and every entry of every argument is stored
into it, arguments in the order given. It returns a map and has no failure path. -/
def Assign {V : Type} (maps : List (GoMap V)) : GoMap V :=
  maps.foldl assignInto []

/-- Two representations of the same Go map: every key looks up the same. -/
def SameMap {V : Type} (m1 m2 : GoMap V) : Prop :=
  ∀ k : String, mapGet m1 k = mapGet m2 k

/-- The two maps share a key. -/
def SharesKey {V : Type} (m1 m2 : GoMap V) : Prop :=
  ∃ k : String, k ∈ mapKeys m1 ∧ k ∈ mapKeys m2

/-- The key sets of the two maps are disjoint. -/
def KeysDisjoint {V : Type} (m1 m2 : GoMap V) : Prop :=
  ∀ k : String, k ∈ mapKeys m1 → k ∉ mapKeys m2

/-! ## Attribute descriptors (`resourceSchema.Attribute`, `datasourceSchema.Attribute`) -/

/-- The values of `attr.Type` used in `deployment.go`. -/
inductive AttrType where
  | StringType
  | BoolType
  | Int64Type
deriving DecidableEq, Repr

/-- The plan modifiers used in `deployment.go` (`stringplanmodifier`, `boolplanmodifier`,
`listplanmodifier`, `objectplanmodifier`). -/
inductive PlanModifier where
  | RequiresReplaceIfConfigured
  | UseStateForUnknown
deriving DecidableEq, Repr

/-- The regular-expression constants of package `validators` that `deployment.go`
compiles; their pattern text is declared outside `deployment.go`. -/
inductive Pattern where
  | KubernetesResourceString
  | EmailString
deriving DecidableEq, Repr

/-- The values of `validator.String` used in `deployment.go`. -/
inductive StringValidator where
  | OneOf (values : List String)
  | IsCuid
  | RegexMatches (pattern : Pattern) (message : String)
  | LengthBetween (min max : Int)
deriving DecidableEq, Repr

/-- The values of `validator.Int64` used in `deployment.go`. -/
inductive Int64Validator where
  | Between (min max : Int)
  | AtLeast (min : Int)
deriving DecidableEq, Repr

/-- The values of `validator.List` used in `deployment.go`. -/
inductive ListValidator where
  | SizeAtLeast (min : Int)
  | ValueStringsAre (elementValidators : List StringValidator)
deriving DecidableEq, Repr

/-- The builder whose result is the `Attributes` map of a nested attribute. -/
inductive NestedAttributes where
  | HostedWorkerQueueResourceSchemaAttributes
  | HybridWorkerQueueResourceSchemaAttributes
  | WorkerQueueDataSourceSchemaAttributes
  | DeploymentEnvironmentVariableResourceAttributes
  | DeploymentEnvironmentVariableDataSourceAttributes
  | ResourceSubjectProfileSchemaAttributes
  | DataSourceSubjectProfileSchemaAttributes
  | ScalingStatusResourceAttributes
  | ScalingStatusDataSourceAttributes
  | ScalingSpecResourceSchemaAttributes
  | ScalingSpecDataSourceSchemaAttributes
deriving DecidableEq, Repr

/-- The Go type of an attribute literal, with what is particular to it: the element
type of a `ListAttribute`, the nested attributes of a `ListNestedAttribute` or
`SingleNestedAttribute`. -/
inductive AttributeKind where
  | StringAttribute
  | BoolAttribute
  | Int64Attribute
  | ListAttribute (ElementType : AttrType)
  | ListNestedAttribute (Attributes : NestedAttributes)
  | SingleNestedAttribute (Attributes : NestedAttributes)
deriving DecidableEq, Repr

/-- One attribute literal. A field the literal leaves out has its Go zero value:
`false`, the empty string, the `nil` slice. -/
structure Attribute where
  kind : AttributeKind
  MarkdownDescription : String := ""
  Required : Bool := false
  Optional : Bool := false
  Computed : Bool := false
  Sensitive : Bool := false
  StringValidators : List StringValidator := []
  Int64Validators : List Int64Validator := []
  ListValidators : List ListValidator := []
  PlanModifiers : List PlanModifier := []
deriving DecidableEq, Repr

/-- How many of the flags `Required`, `Optional`, `Computed` the attribute sets. -/
def requirednessCount (a : Attribute) : Nat :=
  (if a.Required then 1 else 0) + (if a.Optional then 1 else 0) + (if a.Computed then 1 else 0)

/-! ## Constants of the generated client (package `platform`) -/

/-- Modelled from the spec: the constant `platform.ClusterCloudProviderAWS` is declared
in the generated client; the spec gives the cloud providers as AWS, AZURE, GCP. -/
def ClusterCloudProviderAWS : String := "AWS"

/-- Modelled from the spec: the constant `platform.ClusterCloudProviderAZURE` is
declared in the generated client; the spec gives the cloud providers as AWS, AZURE, GCP. -/
def ClusterCloudProviderAZURE : String := "AZURE"

/-- Modelled from the spec: the constant `platform.ClusterCloudProviderGCP` is declared
in the generated client; the spec gives the cloud providers as AWS, AZURE, GCP. -/
def ClusterCloudProviderGCP : String := "GCP"

/-- The other enum constants of the generated client that `deployment.go` reads; their
values are declared outside `deployment.go`, so the builders take them as a parameter. -/
structure Platform where
  SchedulerMachineNameSMALL : String
  SchedulerMachineNameMEDIUM : String
  SchedulerMachineNameLARGE : String
  DeploymentExecutorCELERY : String
  DeploymentExecutorKUBERNETES : String
  WorkerQueueRequestAstroMachineA5 : String
  WorkerQueueRequestAstroMachineA10 : String
  WorkerQueueRequestAstroMachineA20 : String
  WorkerQueueRequestAstroMachineA40 : String
  WorkerQueueRequestAstroMachineA60 : String
  WorkerQueueRequestAstroMachineA120 : String
  WorkerQueueRequestAstroMachineA160 : String

/-! ## `schemas/deployment.go` -/

/-- The builder `CommonDeploymentResourceSchemaAttributes`: a map literal. -/
def CommonDeploymentResourceSchemaAttributes (p : Platform) : GoMap Attribute :=
  [
    ("id", {
      kind := AttributeKind.StringAttribute,
      MarkdownDescription := "Deployment identifier",
      Computed := true,
      PlanModifiers := [PlanModifier.UseStateForUnknown] }),
    ("name", {
      kind := AttributeKind.StringAttribute,
      MarkdownDescription := "Deployment name",
      Required := true }),
    ("description", {
      kind := AttributeKind.StringAttribute,
      MarkdownDescription := "Deployment description",
      Required := true }),
    ("created_at", {
      kind := AttributeKind.StringAttribute,
      MarkdownDescription := "Deployment creation timestamp",
      Computed := true,
      PlanModifiers := [PlanModifier.UseStateForUnknown] }),
    ("updated_at", {
      kind := AttributeKind.StringAttribute,
      MarkdownDescription := "Deployment last updated timestamp",
      Computed := true }),
    ("created_by", {
      kind := AttributeKind.SingleNestedAttribute NestedAttributes.ResourceSubjectProfileSchemaAttributes,
      MarkdownDescription := "Deployment creator",
      Computed := true,
      PlanModifiers := [PlanModifier.UseStateForUnknown] }),
    ("updated_by", {
      kind := AttributeKind.SingleNestedAttribute NestedAttributes.ResourceSubjectProfileSchemaAttributes,
      MarkdownDescription := "Deployment updater",
      Computed := true }),
    ("workspace_id", {
      kind := AttributeKind.StringAttribute,
      MarkdownDescription := "Deployment workspace identifier",
      Required := true,
      StringValidators := [StringValidator.IsCuid] }),
    ("astro_runtime_version", {
      kind := AttributeKind.StringAttribute,
      MarkdownDescription := "Deployment Astro Runtime version. The terraform provider will use the latest Astro runtime version for the Deployment. The Astro runtime version can be updated with your Astro project Dockerfile",
      Computed := true }),
    ("airflow_version", {
      kind := AttributeKind.StringAttribute,
      MarkdownDescription := "Deployment Airflow version",
      Computed := true }),
    ("namespace", {
      kind := AttributeKind.StringAttribute,
      MarkdownDescription := "Deployment namespace",
      Computed := true,
      PlanModifiers := [PlanModifier.UseStateForUnknown] }),
    ("contact_emails", {
      kind := AttributeKind.ListAttribute AttrType.StringType,
      MarkdownDescription := "Deployment contact emails",
      Required := true,
      ListValidators := [ListValidator.ValueStringsAre [StringValidator.RegexMatches Pattern.EmailString "must be a valid email address"]] }),
    ("executor", {
      kind := AttributeKind.StringAttribute,
      MarkdownDescription := "Deployment executor",
      Required := true,
      StringValidators := [StringValidator.OneOf [p.DeploymentExecutorCELERY, p.DeploymentExecutorKUBERNETES]] }),
    ("scheduler_cpu", {
      kind := AttributeKind.StringAttribute,
      MarkdownDescription := "Deployment scheduler CPU",
      Computed := true }),
    ("scheduler_memory", {
      kind := AttributeKind.StringAttribute,
      MarkdownDescription := "Deployment scheduler memory",
      Computed := true }),
    ("image_tag", {
      kind := AttributeKind.StringAttribute,
      MarkdownDescription := "Deployment image tag",
      Computed := true }),
    ("image_repository", {
      kind := AttributeKind.StringAttribute,
      MarkdownDescription := "Deployment image repository",
      Computed := true }),
    ("image_version", {
      kind := AttributeKind.StringAttribute,
      MarkdownDescription := "Deployment image version",
      Computed := true }),
    ("environment_variables", {
      kind := AttributeKind.ListNestedAttribute NestedAttributes.DeploymentEnvironmentVariableResourceAttributes,
      MarkdownDescription := "Deployment environment variables",
      Required := true }),
    ("webserver_ingress_hostname", {
      kind := AttributeKind.StringAttribute,
      MarkdownDescription := "Deployment webserver ingress hostname",
      Computed := true,
      PlanModifiers := [PlanModifier.UseStateForUnknown] }),
    ("webserver_url", {
      kind := AttributeKind.StringAttribute,
      MarkdownDescription := "Deployment webserver URL",
      Computed := true,
      PlanModifiers := [PlanModifier.UseStateForUnknown] }),
    ("webserver_airflow_api_url", {
      kind := AttributeKind.StringAttribute,
      MarkdownDescription := "Deployment webserver Airflow API URL",
      Computed := true,
      PlanModifiers := [PlanModifier.UseStateForUnknown] }),
    ("status", {
      kind := AttributeKind.StringAttribute,
      MarkdownDescription := "Deployment status",
      Computed := true }),
    ("status_reason", {
      kind := AttributeKind.StringAttribute,
      MarkdownDescription := "Deployment status reason",
      Computed := true }),
    ("dag_tarball_version", {
      kind := AttributeKind.StringAttribute,
      MarkdownDescription := "Deployment DAG tarball version",
      Computed := true }),
    ("desired_dag_tarball_version", {
      kind := AttributeKind.StringAttribute,
      MarkdownDescription := "Deployment desired DAG tarball version",
      Computed := true }),
    ("is_cicd_enforced", {
      kind := AttributeKind.BoolAttribute,
      MarkdownDescription := "Deployment CI/CD enforced",
      Required := true }),
    ("is_dag_deploy_enabled", {
      kind := AttributeKind.BoolAttribute,
      MarkdownDescription := "Deployment DAG deploy enabled",
      Required := true }),
    ("external_ips", {
      kind := AttributeKind.ListAttribute AttrType.StringType,
      MarkdownDescription := "Deployment external IPs",
      Computed := true,
      PlanModifiers := [PlanModifier.UseStateForUnknown] }),
    ("oidc_issuer_url", {
      kind := AttributeKind.StringAttribute,
      MarkdownDescription := "Deployment OIDC issuer URL",
      Computed := true,
      PlanModifiers := [PlanModifier.UseStateForUnknown] }),
    ("workload_identity", {
      kind := AttributeKind.StringAttribute,
      MarkdownDescription := "Deployment workload identity. This value can be changed via the Astro API if applicable.",
      Computed := true })
  ]

/-- The map literal that `HostedDeploymentResourceSchemaAttributes` passes to `lo.Assign` as its first argument. -/
def HostedDeploymentResourceSchemaAttributesLiteral (p : Platform) : GoMap Attribute :=
  [
    ("worker_queues", {
      kind := AttributeKind.ListNestedAttribute NestedAttributes.HostedWorkerQueueResourceSchemaAttributes,
      MarkdownDescription := "Deployment worker queues",
      Optional := true,
      ListValidators := [ListValidator.SizeAtLeast 1] }),
    ("scheduler_size", {
      kind := AttributeKind.StringAttribute,
      MarkdownDescription := "Deployment scheduler size",
      Required := true,
      StringValidators := [StringValidator.OneOf [p.SchedulerMachineNameSMALL, p.SchedulerMachineNameMEDIUM, p.SchedulerMachineNameLARGE]] }),
    ("scheduler_replicas", {
      kind := AttributeKind.Int64Attribute,
      MarkdownDescription := "Deployment scheduler replicas",
      Computed := true }),
    ("is_high_availability", {
      kind := AttributeKind.BoolAttribute,
      MarkdownDescription := "Deployment high availability",
      Required := true }),
    ("is_development_mode", {
      kind := AttributeKind.BoolAttribute,
      MarkdownDescription := "Deployment development mode",
      Required := true,
      PlanModifiers := [PlanModifier.RequiresReplaceIfConfigured] }),
    ("resource_quota_cpu", {
      kind := AttributeKind.StringAttribute,
      MarkdownDescription := "Deployment resource quota CPU",
      Required := true,
      StringValidators := [StringValidator.RegexMatches Pattern.KubernetesResourceString "must be a valid kubernetes resource string"] }),
    ("resource_quota_memory", {
      kind := AttributeKind.StringAttribute,
      MarkdownDescription := "Deployment resource quota memory",
      Required := true,
      StringValidators := [StringValidator.RegexMatches Pattern.KubernetesResourceString "must be a valid kubernetes resource string"] }),
    ("default_task_pod_cpu", {
      kind := AttributeKind.StringAttribute,
      MarkdownDescription := "Deployment default task pod CPU",
      Required := true,
      StringValidators := [StringValidator.RegexMatches Pattern.KubernetesResourceString "must be a valid kubernetes resource string"] }),
    ("default_task_pod_memory", {
      kind := AttributeKind.StringAttribute,
      MarkdownDescription := "Deployment default task pod memory",
      Required := true,
      StringValidators := [StringValidator.RegexMatches Pattern.KubernetesResourceString "must be a valid kubernetes resource string"] }),
    ("scaling_status", {
      kind := AttributeKind.SingleNestedAttribute NestedAttributes.ScalingStatusResourceAttributes,
      MarkdownDescription := "Deployment scaling status",
      Computed := true }),
    ("scaling_spec", {
      kind := AttributeKind.SingleNestedAttribute NestedAttributes.ScalingSpecResourceSchemaAttributes,
      MarkdownDescription := "Deployment scaling spec",
      Optional := true })
  ]

/-- The builder `HostedDeploymentResourceSchemaAttributes`: `lo.Assign` of its map literal and `CommonDeploymentResourceSchemaAttributes()`. -/
def HostedDeploymentResourceSchemaAttributes (p : Platform) : GoMap Attribute :=
  Assign [HostedDeploymentResourceSchemaAttributesLiteral p, CommonDeploymentResourceSchemaAttributes p]

/-- The map literal that `StandardDeploymentResourceSchemaAttributes` passes to `lo.Assign` as its first argument. -/
def StandardDeploymentResourceSchemaAttributesLiteral : GoMap Attribute :=
  [
    ("region", {
      kind := AttributeKind.StringAttribute,
      MarkdownDescription := "Deployment region - if changing this value, the deployment will be recreated in the new region",
      Required := true,
      PlanModifiers := [PlanModifier.RequiresReplaceIfConfigured] }),
    ("cloud_provider", {
      kind := AttributeKind.StringAttribute,
      MarkdownDescription := "Deployment cloud provider - if changing this value, the deployment will be recreated in the new cloud provider",
      Required := true,
      StringValidators := [StringValidator.OneOf [ClusterCloudProviderAWS, ClusterCloudProviderAZURE, ClusterCloudProviderGCP]],
      PlanModifiers := [PlanModifier.RequiresReplaceIfConfigured] })
  ]

/-- The builder `StandardDeploymentResourceSchemaAttributes`: `lo.Assign` of its map literal and `HostedDeploymentResourceSchemaAttributes()`. -/
def StandardDeploymentResourceSchemaAttributes (p : Platform) : GoMap Attribute :=
  Assign [StandardDeploymentResourceSchemaAttributesLiteral, HostedDeploymentResourceSchemaAttributes p]

/-- The map literal that `DedicatedDeploymentResourceSchemaAttributes` passes to `lo.Assign` as its first argument. -/
def DedicatedDeploymentResourceSchemaAttributesLiteral : GoMap Attribute :=
  [
    ("cluster_id", {
      kind := AttributeKind.StringAttribute,
      Required := true,
      StringValidators := [StringValidator.IsCuid] }),
    ("region", {
      kind := AttributeKind.StringAttribute,
      MarkdownDescription := "Deployment region",
      Computed := true }),
    ("cloud_provider", {
      kind := AttributeKind.StringAttribute,
      MarkdownDescription := "Deployment cloud provider",
      Computed := true })
  ]

/-- The builder `DedicatedDeploymentResourceSchemaAttributes`: `lo.Assign` of its map literal and `CommonDeploymentResourceSchemaAttributes()`. -/
def DedicatedDeploymentResourceSchemaAttributes (p : Platform) : GoMap Attribute :=
  Assign [DedicatedDeploymentResourceSchemaAttributesLiteral, CommonDeploymentResourceSchemaAttributes p]

/-- The map literal that `HybridDeploymentResourceSchemaAttributes` passes to `lo.Assign` as its first argument. -/
def HybridDeploymentResourceSchemaAttributesLiteral : GoMap Attribute :=
  [
    ("cluster_id", {
      kind := AttributeKind.StringAttribute,
      Required := true,
      StringValidators := [StringValidator.IsCuid] }),
    ("worker_queues", {
      kind := AttributeKind.ListNestedAttribute NestedAttributes.HybridWorkerQueueResourceSchemaAttributes,
      MarkdownDescription := "Deployment worker queues",
      ListValidators := [ListValidator.SizeAtLeast 1] }),
    ("scheduler_au", {
      kind := AttributeKind.Int64Attribute,
      MarkdownDescription := "Deployment scheduler AU",
      Required := true,
      Int64Validators := [Int64Validator.Between 5 24] }),
    ("scheduler_replicas", {
      kind := AttributeKind.Int64Attribute,
      MarkdownDescription := "Deployment scheduler replicas",
      Required := true,
      Int64Validators := [Int64Validator.Between 1 4] }),
    ("region", {
      kind := AttributeKind.StringAttribute,
      MarkdownDescription := "Deployment region",
      Computed := true }),
    ("cloud_provider", {
      kind := AttributeKind.StringAttribute,
      MarkdownDescription := "Deployment cloud provider",
      Computed := true }),
    ("task_pod_node_pool_id", {
      kind := AttributeKind.StringAttribute,
      MarkdownDescription := "Deployment task pod node pool identifier",
      Computed := true })
  ]

/-- The builder `HybridDeploymentResourceSchemaAttributes`: `lo.Assign` of its map literal and `CommonDeploymentResourceSchemaAttributes()`. -/
def HybridDeploymentResourceSchemaAttributes (p : Platform) : GoMap Attribute :=
  Assign [HybridDeploymentResourceSchemaAttributesLiteral, CommonDeploymentResourceSchemaAttributes p]

/-- The builder `DeploymentDataSourceSchemaAttributes`: a map literal. -/
def DeploymentDataSourceSchemaAttributes : GoMap Attribute :=
  [
    ("id", {
      kind := AttributeKind.StringAttribute,
      MarkdownDescription := "Deployment identifier",
      Required := true,
      StringValidators := [StringValidator.IsCuid] }),
    ("name", {
      kind := AttributeKind.StringAttribute,
      MarkdownDescription := "Deployment name",
      Computed := true }),
    ("description", {
      kind := AttributeKind.StringAttribute,
      MarkdownDescription := "Deployment description",
      Computed := true }),
    ("created_at", {
      kind := AttributeKind.StringAttribute,
      MarkdownDescription := "Deployment creation timestamp",
      Computed := true }),
    ("updated_at", {
      kind := AttributeKind.StringAttribute,
      MarkdownDescription := "Deployment last updated timestamp",
      Computed := true }),
    ("created_by", {
      kind := AttributeKind.SingleNestedAttribute NestedAttributes.DataSourceSubjectProfileSchemaAttributes,
      MarkdownDescription := "Deployment creator",
      Computed := true }),
    ("updated_by", {
      kind := AttributeKind.SingleNestedAttribute NestedAttributes.DataSourceSubjectProfileSchemaAttributes,
      MarkdownDescription := "Deployment updater",
      Computed := true }),
    ("workspace_id", {
      kind := AttributeKind.StringAttribute,
      MarkdownDescription := "Deployment workspace identifier",
      Computed := true }),
    ("cluster_id", {
      kind := AttributeKind.StringAttribute,
      MarkdownDescription := "Deployment cluster identifier",
      Computed := true }),
    ("region", {
      kind := AttributeKind.StringAttribute,
      MarkdownDescription := "Deployment region",
      Computed := true }),
    ("cloud_provider", {
      kind := AttributeKind.StringAttribute,
      MarkdownDescription := "Deployment cloud provider",
      Computed := true }),
    ("astro_runtime_version", {
      kind := AttributeKind.StringAttribute,
      MarkdownDescription := "Deployment Astro Runtime version",
      Computed := true }),
    ("airflow_version", {
      kind := AttributeKind.StringAttribute,
      MarkdownDescription := "Deployment Airflow version",
      Computed := true }),
    ("namespace", {
      kind := AttributeKind.StringAttribute,
      MarkdownDescription := "Deployment namespace",
      Computed := true }),
    ("contact_emails", {
      kind := AttributeKind.ListAttribute AttrType.StringType,
      MarkdownDescription := "Deployment contact emails",
      Computed := true }),
    ("executor", {
      kind := AttributeKind.StringAttribute,
      MarkdownDescription := "Deployment executor",
      Computed := true }),
    ("scheduler_au", {
      kind := AttributeKind.Int64Attribute,
      MarkdownDescription := "Deployment scheduler AU",
      Computed := true }),
    ("scheduler_cpu", {
      kind := AttributeKind.StringAttribute,
      MarkdownDescription := "Deployment scheduler CPU",
      Computed := true }),
    ("scheduler_memory", {
      kind := AttributeKind.StringAttribute,
      MarkdownDescription := "Deployment scheduler memory",
      Computed := true }),
    ("scheduler_replicas", {
      kind := AttributeKind.Int64Attribute,
      MarkdownDescription := "Deployment scheduler replicas",
      Computed := true }),
    ("image_tag", {
      kind := AttributeKind.StringAttribute,
      MarkdownDescription := "Deployment image tag",
      Computed := true }),
    ("image_repository", {
      kind := AttributeKind.StringAttribute,
      MarkdownDescription := "Deployment image repository",
      Computed := true }),
    ("image_version", {
      kind := AttributeKind.StringAttribute,
      MarkdownDescription := "Deployment image version",
      Computed := true }),
    ("environment_variables", {
      kind := AttributeKind.ListNestedAttribute NestedAttributes.DeploymentEnvironmentVariableDataSourceAttributes,
      MarkdownDescription := "Deployment environment variables",
      Computed := true }),
    ("webserver_ingress_hostname", {
      kind := AttributeKind.StringAttribute,
      MarkdownDescription := "Deployment webserver ingress hostname",
      Computed := true }),
    ("webserver_url", {
      kind := AttributeKind.StringAttribute,
      MarkdownDescription := "Deployment webserver URL",
      Computed := true }),
    ("webserver_airflow_api_url", {
      kind := AttributeKind.StringAttribute,
      MarkdownDescription := "Deployment webserver Airflow API URL",
      Computed := true }),
    ("status", {
      kind := AttributeKind.StringAttribute,
      MarkdownDescription := "Deployment status",
      Computed := true }),
    ("status_reason", {
      kind := AttributeKind.StringAttribute,
      MarkdownDescription := "Deployment status reason",
      Computed := true }),
    ("dag_tarball_version", {
      kind := AttributeKind.StringAttribute,
      MarkdownDescription := "Deployment DAG tarball version",
      Computed := true }),
    ("desired_dag_tarball_version", {
      kind := AttributeKind.StringAttribute,
      MarkdownDescription := "Deployment desired DAG tarball version",
      Computed := true }),
    ("worker_queues", {
      kind := AttributeKind.ListNestedAttribute NestedAttributes.WorkerQueueDataSourceSchemaAttributes,
      MarkdownDescription := "Deployment worker queues",
      Computed := true }),
    ("task_pod_node_pool_id", {
      kind := AttributeKind.StringAttribute,
      MarkdownDescription := "Deployment task pod node pool identifier",
      Computed := true }),
    ("is_cicd_enforced", {
      kind := AttributeKind.BoolAttribute,
      MarkdownDescription := "Whether the Deployment enforces CI/CD deploys",
      Computed := true }),
    ("type", {
      kind := AttributeKind.StringAttribute,
      MarkdownDescription := "Deployment type",
      Computed := true }),
    ("is_dag_deploy_enabled", {
      kind := AttributeKind.BoolAttribute,
      MarkdownDescription := "Whether DAG deploy is enabled",
      Computed := true }),
    ("scheduler_size", {
      kind := AttributeKind.StringAttribute,
      MarkdownDescription := "Deployment scheduler size",
      Computed := true }),
    ("is_high_availability", {
      kind := AttributeKind.BoolAttribute,
      MarkdownDescription := "Whether Deployment has high availability",
      Computed := true }),
    ("is_development_mode", {
      kind := AttributeKind.BoolAttribute,
      MarkdownDescription := "Whether Deployment is in development mode",
      Computed := true }),
    ("workload_identity", {
      kind := AttributeKind.StringAttribute,
      MarkdownDescription := "Deployment workload identity",
      Computed := true }),
    ("external_ips", {
      kind := AttributeKind.ListAttribute AttrType.StringType,
      MarkdownDescription := "Deployment external IPs",
      Computed := true }),
    ("oidc_issuer_url", {
      kind := AttributeKind.StringAttribute,
      MarkdownDescription := "Deployment OIDC issuer URL",
      Computed := true }),
    ("resource_quota_cpu", {
      kind := AttributeKind.StringAttribute,
      MarkdownDescription := "Deployment resource quota CPU",
      Computed := true }),
    ("resource_quota_memory", {
      kind := AttributeKind.StringAttribute,
      MarkdownDescription := "Deployment resource quota memory",
      Computed := true }),
    ("default_task_pod_cpu", {
      kind := AttributeKind.StringAttribute,
      MarkdownDescription := "Deployment default task pod CPU",
      Computed := true }),
    ("default_task_pod_memory", {
      kind := AttributeKind.StringAttribute,
      MarkdownDescription := "Deployment default task pod memory",
      Computed := true }),
    ("scaling_status", {
      kind := AttributeKind.SingleNestedAttribute NestedAttributes.ScalingStatusDataSourceAttributes,
      MarkdownDescription := "Deployment scaling status",
      Computed := true }),
    ("scaling_spec", {
      kind := AttributeKind.SingleNestedAttribute NestedAttributes.ScalingSpecDataSourceSchemaAttributes,
      MarkdownDescription := "Deployment scaling spec",
      Computed := true })
  ]

/-- The builder `DeploymentEnvironmentVariableAttributeTypes`: a map literal. -/
def DeploymentEnvironmentVariableAttributeTypes : GoMap AttrType :=
  [
    ("key", AttrType.StringType),
    ("value", AttrType.StringType),
    ("updated_at", AttrType.StringType),
    ("is_secret", AttrType.BoolType)
  ]

/-- The builder `DeploymentEnvironmentVariableDataSourceAttributes`: a map literal. -/
def DeploymentEnvironmentVariableDataSourceAttributes : GoMap Attribute :=
  [
    ("key", {
      kind := AttributeKind.StringAttribute,
      MarkdownDescription := "Environment variable key",
      Computed := true }),
    ("value", {
      kind := AttributeKind.StringAttribute,
      MarkdownDescription := "Environment variable value",
      Computed := true }),
    ("updated_at", {
      kind := AttributeKind.StringAttribute,
      MarkdownDescription := "Environment variable last updated timestamp",
      Computed := true }),
    ("is_secret", {
      kind := AttributeKind.BoolAttribute,
      MarkdownDescription := "Whether Environment variable is a secret",
      Computed := true })
  ]

/-- The builder `DeploymentEnvironmentVariableResourceAttributes`: a map literal. -/
def DeploymentEnvironmentVariableResourceAttributes : GoMap Attribute :=
  [
    ("key", {
      kind := AttributeKind.StringAttribute,
      MarkdownDescription := "Environment variable key",
      Required := true }),
    ("value", {
      kind := AttributeKind.StringAttribute,
      MarkdownDescription := "Environment variable value",
      Required := true,
      Sensitive := true }),
    ("updated_at", {
      kind := AttributeKind.StringAttribute,
      MarkdownDescription := "Environment variable last updated timestamp",
      Computed := true }),
    ("is_secret", {
      kind := AttributeKind.BoolAttribute,
      MarkdownDescription := "Whether Environment variable is a secret",
      Required := true })
  ]

/-- The builder `CommonWorkerQueueAttributeTypes`: a map literal. -/
def CommonWorkerQueueAttributeTypes : GoMap AttrType :=
  [
    ("id", AttrType.StringType),
    ("name", AttrType.StringType),
    ("is_default", AttrType.BoolType),
    ("max_worker_count", AttrType.Int64Type),
    ("min_worker_count", AttrType.Int64Type),
    ("pod_cpu", AttrType.StringType),
    ("pod_memory", AttrType.StringType),
    ("worker_concurrency", AttrType.Int64Type)
  ]

/-- The map literal that `WorkerQueueAttributeTypes` passes to `lo.Assign` as its first argument. -/
def WorkerQueueAttributeTypesLiteral : GoMap AttrType :=
  [
    ("node_pool_id", AttrType.StringType),
    ("astro_machine", AttrType.StringType)
  ]

/-- The builder `WorkerQueueAttributeTypes`: `lo.Assign` of its map literal and `CommonWorkerQueueAttributeTypes()`. -/
def WorkerQueueAttributeTypes : GoMap AttrType :=
  Assign [WorkerQueueAttributeTypesLiteral, CommonWorkerQueueAttributeTypes]

/-- The map literal that `HostedWorkerQueueAttributeTypes` passes to `lo.Assign` as its first argument. -/
def HostedWorkerQueueAttributeTypesLiteral : GoMap AttrType :=
  [
    ("astro_machine", AttrType.StringType)
  ]

/-- The builder `HostedWorkerQueueAttributeTypes`: `lo.Assign` of its map literal and `CommonWorkerQueueAttributeTypes()`. -/
def HostedWorkerQueueAttributeTypes : GoMap AttrType :=
  Assign [HostedWorkerQueueAttributeTypesLiteral, CommonWorkerQueueAttributeTypes]

/-- The map literal that `HybridWorkerQueueAttributeTypes` passes to `lo.Assign` as its first argument. -/
def HybridWorkerQueueAttributeTypesLiteral : GoMap AttrType :=
  [
    ("node_pool_id", AttrType.StringType)
  ]

/-- The builder `HybridWorkerQueueAttributeTypes`: `lo.Assign` of its map literal and `CommonWorkerQueueAttributeTypes()`. -/
def HybridWorkerQueueAttributeTypes : GoMap AttrType :=
  Assign [HybridWorkerQueueAttributeTypesLiteral, CommonWorkerQueueAttributeTypes]

/-- The builder `WorkerQueueDataSourceSchemaAttributes`: a map literal. -/
def WorkerQueueDataSourceSchemaAttributes : GoMap Attribute :=
  [
    ("id", {
      kind := AttributeKind.StringAttribute,
      MarkdownDescription := "Worker queue identifier",
      Computed := true }),
    ("name", {
      kind := AttributeKind.StringAttribute,
      MarkdownDescription := "Worker queue name",
      Computed := true }),
    ("astro_machine", {
      kind := AttributeKind.StringAttribute,
      MarkdownDescription := "Worker queue Astro machine value",
      Computed := true }),
    ("is_default", {
      kind := AttributeKind.BoolAttribute,
      MarkdownDescription := "Whether Worker queue is default",
      Computed := true }),
    ("max_worker_count", {
      kind := AttributeKind.Int64Attribute,
      MarkdownDescription := "Worker queue max worker count",
      Computed := true }),
    ("min_worker_count", {
      kind := AttributeKind.Int64Attribute,
      MarkdownDescription := "Worker queue min worker count",
      Computed := true }),
    ("node_pool_id", {
      kind := AttributeKind.StringAttribute,
      MarkdownDescription := "Worker queue node pool identifier",
      Computed := true }),
    ("pod_cpu", {
      kind := AttributeKind.StringAttribute,
      MarkdownDescription := "Worker queue pod CPU",
      Computed := true }),
    ("pod_memory", {
      kind := AttributeKind.StringAttribute,
      MarkdownDescription := "Worker queue pod memory",
      Computed := true }),
    ("worker_concurrency", {
      kind := AttributeKind.Int64Attribute,
      MarkdownDescription := "Worker queue worker concurrency",
      Computed := true })
  ]

/-- The builder `CommonWorkerQueueResourceSchemaAttributes`: a map literal. -/
def CommonWorkerQueueResourceSchemaAttributes : GoMap Attribute :=
  [
    ("id", {
      kind := AttributeKind.StringAttribute,
      Computed := true }),
    ("name", {
      kind := AttributeKind.StringAttribute,
      Required := true,
      StringValidators := [StringValidator.LengthBetween 1 63] }),
    ("is_default", {
      kind := AttributeKind.BoolAttribute,
      Required := true }),
    ("max_worker_count", {
      kind := AttributeKind.Int64Attribute,
      Required := true,
      Int64Validators := [Int64Validator.AtLeast 1] }),
    ("min_worker_count", {
      kind := AttributeKind.Int64Attribute,
      Required := true,
      Int64Validators := [Int64Validator.AtLeast 0] }),
    ("pod_cpu", {
      kind := AttributeKind.StringAttribute,
      Computed := true }),
    ("pod_memory", {
      kind := AttributeKind.StringAttribute,
      Computed := true }),
    ("worker_concurrency", {
      kind := AttributeKind.Int64Attribute,
      Required := true,
      Int64Validators := [Int64Validator.AtLeast 1] })
  ]

/-- The map literal that `HybridWorkerQueueResourceSchemaAttributes` passes to `lo.Assign` as its first argument. -/
def HybridWorkerQueueResourceSchemaAttributesLiteral : GoMap Attribute :=
  [
    ("node_pool_id", {
      kind := AttributeKind.StringAttribute,
      Required := true,
      StringValidators := [StringValidator.IsCuid] })
  ]

/-- The builder `HybridWorkerQueueResourceSchemaAttributes`: `lo.Assign` of its map literal and `CommonWorkerQueueResourceSchemaAttributes()`. -/
def HybridWorkerQueueResourceSchemaAttributes : GoMap Attribute :=
  Assign [HybridWorkerQueueResourceSchemaAttributesLiteral, CommonWorkerQueueResourceSchemaAttributes]

/-- The map literal that `HostedWorkerQueueResourceSchemaAttributes` passes to `lo.Assign` as its first argument. -/
def HostedWorkerQueueResourceSchemaAttributesLiteral (p : Platform) : GoMap Attribute :=
  [
    ("astro_machine", {
      kind := AttributeKind.StringAttribute,
      Required := true,
      StringValidators := [StringValidator.OneOf [p.WorkerQueueRequestAstroMachineA5, p.WorkerQueueRequestAstroMachineA10, p.WorkerQueueRequestAstroMachineA20, p.WorkerQueueRequestAstroMachineA40, p.WorkerQueueRequestAstroMachineA60, p.WorkerQueueRequestAstroMachineA120, p.WorkerQueueRequestAstroMachineA160]] })
  ]

/-- The builder `HostedWorkerQueueResourceSchemaAttributes`: `lo.Assign` of its map literal and `CommonWorkerQueueResourceSchemaAttributes()`. -/
def HostedWorkerQueueResourceSchemaAttributes (p : Platform) : GoMap Attribute :=
  Assign [HostedWorkerQueueResourceSchemaAttributesLiteral p, CommonWorkerQueueResourceSchemaAttributes]

/-! ## The builders, by variant -/

/-- The four deployment resource variants. -/
inductive DeploymentVariant where
  | Standard
  | Dedicated
  | Hosted
  | Hybrid
deriving DecidableEq, Repr

/-- The variant-specific map literal of a deployment variant builder. -/
def DeploymentVariant.literal (p : Platform) : DeploymentVariant → GoMap Attribute
  | DeploymentVariant.Standard => StandardDeploymentResourceSchemaAttributesLiteral
  | DeploymentVariant.Dedicated => DedicatedDeploymentResourceSchemaAttributesLiteral
  | DeploymentVariant.Hosted => HostedDeploymentResourceSchemaAttributesLiteral p
  | DeploymentVariant.Hybrid => HybridDeploymentResourceSchemaAttributesLiteral

/-- The base map a deployment variant builder merges its literal with. -/
def DeploymentVariant.base (p : Platform) : DeploymentVariant → GoMap Attribute
  | DeploymentVariant.Standard => HostedDeploymentResourceSchemaAttributes p
  | DeploymentVariant.Dedicated => CommonDeploymentResourceSchemaAttributes p
  | DeploymentVariant.Hosted => CommonDeploymentResourceSchemaAttributes p
  | DeploymentVariant.Hybrid => CommonDeploymentResourceSchemaAttributes p

/-- The attribute map a deployment variant builder returns. -/
def DeploymentVariant.attributes (p : Platform) : DeploymentVariant → GoMap Attribute
  | DeploymentVariant.Standard => StandardDeploymentResourceSchemaAttributes p
  | DeploymentVariant.Dedicated => DedicatedDeploymentResourceSchemaAttributes p
  | DeploymentVariant.Hosted => HostedDeploymentResourceSchemaAttributes p
  | DeploymentVariant.Hybrid => HybridDeploymentResourceSchemaAttributes p

/-- The two worker-queue resource variants. -/
inductive WorkerQueueVariant where
  | Hosted
  | Hybrid
deriving DecidableEq, Repr

/-- The variant-specific map literal of a worker-queue variant builder. -/
def WorkerQueueVariant.literal (p : Platform) : WorkerQueueVariant → GoMap Attribute
  | WorkerQueueVariant.Hosted => HostedWorkerQueueResourceSchemaAttributesLiteral p
  | WorkerQueueVariant.Hybrid => HybridWorkerQueueResourceSchemaAttributesLiteral

/-- The attribute map a worker-queue variant builder returns. -/
def WorkerQueueVariant.attributes (p : Platform) : WorkerQueueVariant → GoMap Attribute
  | WorkerQueueVariant.Hosted => HostedWorkerQueueResourceSchemaAttributes p
  | WorkerQueueVariant.Hybrid => HybridWorkerQueueResourceSchemaAttributes

/-- A `Platform` instance used to run the builders. -/
def samplePlatform : Platform where
  SchedulerMachineNameSMALL := "SMALL"
  SchedulerMachineNameMEDIUM := "MEDIUM"
  SchedulerMachineNameLARGE := "LARGE"
  DeploymentExecutorCELERY := "CELERY"
  DeploymentExecutorKUBERNETES := "KUBERNETES"
  WorkerQueueRequestAstroMachineA5 := "A5"
  WorkerQueueRequestAstroMachineA10 := "A10"
  WorkerQueueRequestAstroMachineA20 := "A20"
  WorkerQueueRequestAstroMachineA40 := "A40"
  WorkerQueueRequestAstroMachineA60 := "A60"
  WorkerQueueRequestAstroMachineA120 := "A120"
  WorkerQueueRequestAstroMachineA160 := "A160"

/-! ## Validators, as the framework evaluates them on a known value -/

/-- The diagnostic of `validatordiag.InvalidAttributeValueMatchDiagnostic`, which
`stringvalidator.OneOf` and `stringvalidator.RegexMatches` report. -/
def InvalidAttributeValueMatch : Diagnostic :=
  { severity := Severity.Error, summary := "Invalid Attribute Value Match" }

/-- The diagnostic of `validatordiag.InvalidAttributeValueDiagnostic`, which
`int64validator.Between` and `int64validator.AtLeast` report. -/
def InvalidAttributeValue : Diagnostic :=
  { severity := Severity.Error, summary := "Invalid Attribute Value" }

/-- The diagnostic of `validatordiag.InvalidAttributeValueLengthDiagnostic`, which
`stringvalidator.LengthBetween` reports. -/
def InvalidAttributeValueLength : Diagnostic :=
  { severity := Severity.Error, summary := "Invalid Attribute Value Length" }

/-- What the string validators need from outside `deployment.go`: the diagnostics of
`validators.IsCuid`, regular-expression matching against the pattern constants, and
the length `stringvalidator.LengthBetween` measures. -/
structure StringChecks where
  isCuid : String → Diagnostics
  regexMatches : Pattern → String → Bool
  length : String → Int

/-- One `validator.String` run on a known string: its diagnostics. `OneOf` accepts
exactly the listed values. -/
def StringValidator.validate (chk : StringChecks) : StringValidator → String → Diagnostics
  | StringValidator.OneOf values, s =>
    if s ∈ values then [] else [InvalidAttributeValueMatch]
  | StringValidator.IsCuid, s => chk.isCuid s
  | StringValidator.RegexMatches pattern _, s =>
    if chk.regexMatches pattern s then [] else [InvalidAttributeValueMatch]
  | StringValidator.LengthBetween min max, s =>
    if chk.length s < min ∨ chk.length s > max then [InvalidAttributeValueLength] else []

/-- One `validator.Int64` run on a known integer: `Between` rejects `v < min || v > max`,
`AtLeast` rejects `v < min`. -/
def Int64Validator.validate : Int64Validator → Int → Diagnostics
  | Int64Validator.Between min max, v =>
    if v < min ∨ v > max then [InvalidAttributeValue] else []
  | Int64Validator.AtLeast min, v =>
    if v < min then [InvalidAttributeValue] else []

/-- All string validators of an attribute run on a known string, diagnostics
accumulated in order. -/
def Attribute.validateString (chk : StringChecks) (a : Attribute) (s : String) : Diagnostics :=
  (a.StringValidators.map (fun v => v.validate chk s)).flatten

/-- All int64 validators of an attribute run on a known integer, diagnostics
accumulated in order. -/
def Attribute.validateInt64 (a : Attribute) (v : Int) : Diagnostics :=
  (a.Int64Validators.map (fun w => w.validate v)).flatten

/-- A known string is accepted for the attribute: validation reports no error. -/
def Attribute.acceptsString (chk : StringChecks) (a : Attribute) (s : String) : Bool :=
  !HasError (a.validateString chk s)

/-- A known integer is accepted for the attribute: validation reports no error. -/
def Attribute.acceptsInt64 (a : Attribute) (v : Int) : Bool :=
  !HasError (a.validateInt64 v)

/-! ## Reading the schemas: semantic types, identifiers, the list of schemas -/

/-- The semantic type of an attribute (string, bool, int64, list of an element type,
list of nested objects, single nested object). -/
inductive SemanticType where
  | string
  | bool
  | int64
  | listOf (element : AttrType)
  | listNested
  | singleNested
deriving DecidableEq, Repr

/-- The semantic type of an attribute literal, read off its Go type; which builder
supplies the nested attributes is left out. -/
def AttributeKind.semantic : AttributeKind → SemanticType
  | AttributeKind.StringAttribute => SemanticType.string
  | AttributeKind.BoolAttribute => SemanticType.bool
  | AttributeKind.Int64Attribute => SemanticType.int64
  | AttributeKind.ListAttribute t => SemanticType.listOf t
  | AttributeKind.ListNestedAttribute _ => SemanticType.listNested
  | AttributeKind.SingleNestedAttribute _ => SemanticType.singleNested

/-- The semantic type an `attr.Type` of `deployment.go` stands for. -/
def AttrType.semantic : AttrType → SemanticType
  | AttrType.StringType => SemanticType.string
  | AttrType.BoolType => SemanticType.bool
  | AttrType.Int64Type => SemanticType.int64

/-- The attribute is named as an identifier: `id`, or a name ending in `_id`. -/
def isIdentifierKey (k : String) : Bool :=
  decide (k = "id") || "_id".toList.isSuffixOf k.toList

/-- The attribute lists `validators.IsCuid()` among its string validators. -/
def carriesIsCuid (a : Attribute) : Bool :=
  decide (StringValidator.IsCuid ∈ a.StringValidators)

/-- An entry that is a Required identifier attribute carries `IsCuid`. -/
def requiredIdentifierChecked (e : String × Attribute) : Bool :=
  !(isIdentifierKey e.1 && e.2.Required) || carriesIsCuid e.2

/-- Every builder of `deployment.go` that returns an attribute map, in source order. -/
def allSchemas (p : Platform) : List (GoMap Attribute) :=
  [StandardDeploymentResourceSchemaAttributes p,
   DedicatedDeploymentResourceSchemaAttributes p,
   HostedDeploymentResourceSchemaAttributes p,
   HybridDeploymentResourceSchemaAttributes p,
   CommonDeploymentResourceSchemaAttributes p,
   DeploymentDataSourceSchemaAttributes,
   DeploymentEnvironmentVariableDataSourceAttributes,
   DeploymentEnvironmentVariableResourceAttributes,
   WorkerQueueDataSourceSchemaAttributes,
   HybridWorkerQueueResourceSchemaAttributes,
   HostedWorkerQueueResourceSchemaAttributes p,
   CommonWorkerQueueResourceSchemaAttributes]

/-- The entry names an attribute that the deployment data-source schema also has, with
the same semantic type. -/
def inDataSourceWithSameType (e : String × Attribute) : Bool :=
  decide ((mapGet DeploymentDataSourceSchemaAttributes e.1).map (fun d => d.kind.semantic)
    = some e.2.kind.semantic)

/-- The requiredness of a data-source entry is the one the claim gives it: `id` is
Required and nothing else, every other attribute is Computed and nothing else. -/
def dataSourceRequiredness (e : String × Attribute) : Bool :=
  if e.1 = "id" then e.2.Required && !e.2.Optional && !e.2.Computed
  else e.2.Computed && !e.2.Required && !e.2.Optional

/-! ## Lemmas on Go maps and `lo.Assign` -/

theorem mapGet_eq_none_of_not_mem {V : Type} (m : GoMap V) (k : String)
    (h : k ∉ mapKeys m) : mapGet m k = none := by
  induction m with
  | nil => rfl
  | cons e rest ih =>
    obtain ⟨k1, v1⟩ := e
    simp only [mapKeys, List.map_cons, List.mem_cons, not_or] at h
    have hne : ¬ k1 = k := fun hk => h.1 hk.symm
    simp only [mapGet, if_neg hne]
    exact ih h.2

theorem mapGet_isSome_of_mem {V : Type} (m : GoMap V) (k : String)
    (h : k ∈ mapKeys m) : (mapGet m k).isSome = true := by
  induction m with
  | nil => simp [mapKeys] at h
  | cons e rest ih =>
    obtain ⟨k1, v1⟩ := e
    by_cases hk : k1 = k
    · simp [mapGet, hk]
    · simp only [mapKeys, List.map_cons, List.mem_cons] at h
      rcases h with h | h
      · exact absurd h.symm hk
      · simp only [mapGet, if_neg hk]
        exact ih h

theorem mem_mapKeys_of_mapGet {V : Type} (m : GoMap V) (k : String) (v : V)
    (h : mapGet m k = some v) : k ∈ mapKeys m := by
  by_contra hk
  rw [mapGet_eq_none_of_not_mem m k hk] at h
  exact Option.noConfusion h

theorem mapGet_mapSet {V : Type} (m : GoMap V) (k : String) (v : V) (k2 : String) :
    mapGet (mapSet m k v) k2 = if k = k2 then some v else mapGet m k2 := by
  induction m with
  | nil => simp [mapSet, mapGet]
  | cons e rest ih =>
    obtain ⟨k1, v1⟩ := e
    by_cases h1 : k1 = k
    · subst h1
      by_cases h2 : k1 = k2 <;> simp [mapSet, mapGet, h2]
    · by_cases h2 : k1 = k2
      · subst h2
        simp [mapSet, mapGet, h1, Ne.symm h1]
      · simp [mapSet, mapGet, h1, h2, ih]

theorem mapSet_of_not_mem {V : Type} (m : GoMap V) (k : String) (v : V)
    (h : k ∉ mapKeys m) : mapSet m k v = m ++ [(k, v)] := by
  induction m with
  | nil => rfl
  | cons e rest ih =>
    obtain ⟨k1, v1⟩ := e
    simp only [mapKeys, List.map_cons, List.mem_cons, not_or] at h
    have hne : ¬ k1 = k := fun hk => h.1 hk.symm
    simp only [mapSet, if_neg hne, List.cons_append]
    rw [ih h.2]

theorem mapKeys_append {V : Type} (a b : GoMap V) :
    mapKeys (a ++ b) = mapKeys a ++ mapKeys b := by
  simp [mapKeys]

theorem assignInto_cons {V : Type} (out : GoMap V) (e : String × V) (rest : GoMap V) :
    assignInto out (e :: rest) = assignInto (mapSet out e.1 e.2) rest := rfl

/-- Storing the entries of a map whose keys are distinct and absent from `out`
appends them to `out`. -/
theorem assignInto_of_disjoint {V : Type} (m out : GoMap V)
    (hm : (mapKeys m).Nodup) (hd : ∀ k ∈ mapKeys m, k ∉ mapKeys out) :
    assignInto out m = out ++ m := by
  induction m generalizing out with
  | nil => simp [assignInto]
  | cons e rest ih =>
    obtain ⟨k1, v1⟩ := e
    simp only [mapKeys, List.map_cons, List.nodup_cons] at hm
    have h1 : k1 ∉ mapKeys out := hd k1 (by simp [mapKeys])
    rw [assignInto_cons, mapSet_of_not_mem out k1 v1 h1, ih (out ++ [(k1, v1)]) hm.2]
    · simp
    · intro k hk
      rw [mapKeys_append]
      simp only [List.mem_append, not_or]
      refine ⟨hd k (by simp only [mapKeys, List.map_cons, List.mem_cons]; exact Or.inr hk), ?_⟩
      simp only [mapKeys, List.map_cons, List.map_nil, List.mem_singleton]
      intro hkk
      exact hm.1 (hkk ▸ hk)

/-- On two maps with distinct keys and disjoint key sets, `lo.Assign` yields the
entries of the first followed by the entries of the second. -/
theorem Assign_pair_of_disjoint {V : Type} (a b : GoMap V)
    (ha : (mapKeys a).Nodup) (hb : (mapKeys b).Nodup) (hd : KeysDisjoint a b) :
    Assign [a, b] = a ++ b := by
  have h0 : assignInto ([] : GoMap V) a = a := by
    rw [assignInto_of_disjoint a [] ha (by intro k _; simp [mapKeys])]
    rfl
  show assignInto (assignInto [] a) b = a ++ b
  rw [h0]
  exact assignInto_of_disjoint b a hb (fun k hk hka => hd k hka hk)

/-- Looking a key up after storing the entries of a map with distinct keys: the
stored map wins, `out` answers for the keys it lacks. -/
theorem mapGet_assignInto {V : Type} (m out : GoMap V) (hm : (mapKeys m).Nodup)
    (k : String) :
    mapGet (assignInto out m) k = (mapGet m k).orElse (fun _ => mapGet out k) := by
  induction m generalizing out with
  | nil => simp [assignInto, mapGet]
  | cons e rest ih =>
    obtain ⟨k1, v1⟩ := e
    simp only [mapKeys, List.map_cons, List.nodup_cons] at hm
    rw [assignInto_cons, ih _ hm.2, mapGet_mapSet]
    by_cases hk : k1 = k
    · subst hk
      have hn : mapGet rest k1 = none := mapGet_eq_none_of_not_mem rest k1 hm.1
      simp [mapGet, hn]
    · simp [mapGet, hk]

theorem mapGet_Assign_pair {V : Type} (a b : GoMap V)
    (ha : (mapKeys a).Nodup) (hb : (mapKeys b).Nodup) (k : String) :
    mapGet (Assign [a, b]) k = (mapGet b k).orElse (fun _ => mapGet a k) := by
  show mapGet (assignInto (assignInto [] a) b) k = _
  rw [mapGet_assignInto b _ hb k, mapGet_assignInto a [] ha k]
  cases mapGet b k with
  | some v => rfl
  | none =>
    cases mapGet a k with
    | some v => rfl
    | none => rfl

theorem mapGet_append {V : Type} (a b : GoMap V) (k : String) :
    mapGet (a ++ b) k = (mapGet a k).orElse (fun _ => mapGet b k) := by
  induction a with
  | nil => simp [mapGet]
  | cons e rest ih =>
    obtain ⟨k1, v1⟩ := e
    by_cases hk : k1 = k
    · simp [mapGet, hk]
    · simp only [List.cons_append, mapGet, if_neg hk]
      exact ih

/-- With disjoint key sets the order of the two arguments of `lo.Assign` does not
change the map. -/
theorem SameMap_Assign_swap {V : Type} (a b : GoMap V)
    (ha : (mapKeys a).Nodup) (hb : (mapKeys b).Nodup) (hd : KeysDisjoint a b) :
    SameMap (Assign [b, a]) (Assign [a, b]) := by
  intro k
  rw [mapGet_Assign_pair b a hb ha k, mapGet_Assign_pair a b ha hb k]
  cases hga : mapGet a k with
  | none =>
    cases hgb : mapGet b k with
    | none => rfl
    | some w => rfl
  | some v =>
    cases hgb : mapGet b k with
    | none => rfl
    | some w =>
      exact absurd (mem_mapKeys_of_mapGet b k w hgb) (hd k (mem_mapKeys_of_mapGet a k v hga))

/-! ## Lemmas on `ClustersDataSource.ReadFromResponse` -/

theorem set_length_append {γ : Type} (done : List γ) (x y : γ) (tl : List γ) :
    (done ++ x :: tl).set done.length y = done ++ y :: tl := by
  induction done with
  | nil => rfl
  | cons d ds ih => simp only [List.cons_append, List.length_cons, List.set_cons_succ, ih]

theorem elementFailure_eq_none {α β γ : Type} (ext : Collaborators α β γ) (c : α) :
    elementFailure ext c = none ↔ mappingFails ext c = false ∧ conversionFails ext c = false := by
  unfold elementFailure
  cases hm : mappingFails ext c <;> cases hc : conversionFails ext c <;> simp

theorem elementFailure_hasError {α β γ : Type} (ext : Collaborators α β γ) (c : α)
    (d : Diagnostics) (h : elementFailure ext c = some d) : HasError d = true := by
  unfold elementFailure at h
  by_cases hm : mappingFails ext c = true
  · rw [if_pos hm] at h
    cases h
    exact hm
  · rw [if_neg hm] at h
    by_cases hc : conversionFails ext c = true
    · rw [if_pos hc] at h
      cases h
      exact hc
    · rw [if_neg hc] at h
      exact Option.noConfusion h

theorem ne_nil_of_hasError (d : Diagnostics) (h : HasError d = true) : d ≠ [] := by
  intro hd
  subst hd
  exact Bool.noConfusion h

/-- One turn of the loop on an element with a failing step returns its diagnostics. -/
theorem readLoop_cons_fail {α β γ : Type} (ext : Collaborators α β γ) (c : α) (rest : List α)
    (i : Nat) (values : List γ) (d : Diagnostics) (h : elementFailure ext c = some d) :
    readLoop ext (c :: rest) i values = Except.error d := by
  unfold elementFailure at h
  by_cases hm : mappingFails ext c = true
  · rw [if_pos hm] at h
    cases h
    have hm2 : HasError (ext.ClusterReadFromResponse c).2 = true := hm
    simp [readLoop, hm2]
  · rw [if_neg hm] at h
    by_cases hc : conversionFails ext c = true
    · rw [if_pos hc] at h
      cases h
      have hm2 : ¬ HasError (ext.ClusterReadFromResponse c).2 = true := hm
      have hc2 : HasError (ext.ObjectValueFrom (ext.ClusterReadFromResponse c).1).2 = true := hc
      simp [readLoop, hm2, hc2]
    · rw [if_neg hc] at h
      exact Option.noConfusion h

/-- One turn of the loop on an element whose two steps succeed stores the converted
object at index `i` and goes on. -/
theorem readLoop_cons_ok {α β γ : Type} (ext : Collaborators α β γ) (c : α) (rest : List α)
    (i : Nat) (values : List γ) (h : elementFailure ext c = none) :
    readLoop ext (c :: rest) i values = readLoop ext rest (i + 1) (values.set i (convert ext c)) := by
  rw [elementFailure_eq_none] at h
  have hm2 : ¬ HasError (ext.ClusterReadFromResponse c).2 = true := by
    have := h.1
    unfold mappingFails at this
    simp [this]
  have hc2 : ¬ HasError (ext.ObjectValueFrom (ext.ClusterReadFromResponse c).1).2 = true := by
    have := h.2
    unfold conversionFails at this
    simp [this]
  simp [readLoop, hm2, hc2, convert]

/-- What the loop returns, started after `done.length` stored objects: the diagnostics
of the first element with a failing step, or the slice filled in input order. -/
theorem readLoop_eq {α β γ : Type} [Inhabited γ] (ext : Collaborators α β γ)
    (cs : List α) (done : List γ) :
    readLoop ext cs done.length (done ++ List.replicate cs.length default) =
      match cs.findSome? (elementFailure ext) with
      | some d => Except.error d
      | none => Except.ok (done ++ cs.map (convert ext)) := by
  induction cs generalizing done with
  | nil => simp [readLoop]
  | cons c rest ih =>
    cases hc : elementFailure ext c with
    | some d =>
      rw [readLoop_cons_fail ext c rest _ _ d hc]
      simp [List.findSome?, hc]
    | none =>
      rw [readLoop_cons_ok ext c rest _ _ hc]
      have hset : (done ++ List.replicate (c :: rest).length default).set done.length
          (convert ext c) = (done ++ [convert ext c]) ++ List.replicate rest.length default := by
        rw [List.length_cons, List.replicate_succ, set_length_append]
        simp
      have hlen : done.length + 1 = (done ++ [convert ext c]).length := by simp
      rw [hset, hlen, ih (done ++ [convert ext c])]
      simp [List.findSome?, hc]

/-- The result of `ReadFromResponse` in closed form. -/
theorem ReadFromResponse_eq {α β γ σ : Type} [Inhabited γ] (ext : Collaborators α β γ)
    (data : ClustersDataSource γ σ) (clusters : List α) :
    ClustersDataSource.ReadFromResponse ext data clusters =
      match clusters.findSome? (elementFailure ext) with
      | some d => (data, d)
      | none =>
        ({ Clusters := (ext.ListValue (clusters.map (convert ext))).1,
           CloudProvider := data.CloudProvider, Names := data.Names },
         if listFails ext (clusters.map (convert ext)) then
           (ext.ListValue (clusters.map (convert ext))).2
         else []) := by
  have h := readLoop_eq ext clusters ([] : List γ)
  simp only [List.length_nil, List.nil_append] at h
  unfold ClustersDataSource.ReadFromResponse
  rw [h]
  cases hf : clusters.findSome? (elementFailure ext) with
  | some d => rfl
  | none =>
    simp only [listFails]
    by_cases hl : HasError (ext.ListValue (clusters.map (convert ext))).2 = true
    · simp [hl]
    · simp [hl]

theorem findSome_elementFailure_none {α β γ : Type} (ext : Collaborators α β γ)
    (clusters : List α) :
    clusters.findSome? (elementFailure ext) = none ↔
      ∀ c ∈ clusters, mappingFails ext c = false ∧ conversionFails ext c = false := by
  rw [List.findSome?_eq_none_iff]
  constructor
  · intro h c hc
    exact (elementFailure_eq_none ext c).1 (h c hc)
  · intro h c hc
    exact (elementFailure_eq_none ext c).2 (h c hc)

theorem findSome_append_fail {α β γ : Type} (ext : Collaborators α β γ)
    (pre : List α) (x : α) (suf : List α) (d : Diagnostics)
    (hpre : ∀ c ∈ pre, mappingFails ext c = false ∧ conversionFails ext c = false)
    (hx : elementFailure ext x = some d) :
    (pre ++ x :: suf).findSome? (elementFailure ext) = some d := by
  induction pre with
  | nil => simp [List.findSome?, hx]
  | cons c rest ih =>
    have hc : elementFailure ext c = none :=
      (elementFailure_eq_none ext c).2 (hpre c (by simp))
    simp only [List.cons_append, List.findSome?, hc]
    exact ih (fun c2 h2 => hpre c2 (by simp [h2]))

/-! ## `ClustersDataSource.ReadFromResponse`: the claims -/

/-- C1. When every element mapping, every element object conversion and the list
assembly succeed, `ReadFromResponse` returns empty diagnostics and sets `Clusters` to
the known list whose elements are, index by index and in input order, the objects
converted from the input records: as many elements as records, nothing filtered,
nothing merged. -/
theorem ReadFromResponse_success {α β γ σ : Type} [Inhabited γ] (ext : Collaborators α β γ)
    (data : ClustersDataSource γ σ) (clusters : List α)
    (hmap : ∀ c ∈ clusters, mappingFails ext c = false)
    (hobj : ∀ c ∈ clusters, conversionFails ext c = false)
    (hlist : ListAssemblySucceeds ext (clusters.map (convert ext))) :
    (ClustersDataSource.ReadFromResponse ext data clusters).2 = [] ∧
    ∃ elements : List γ,
      (ClustersDataSource.ReadFromResponse ext data clusters).1.Clusters = TList.known elements ∧
      elements.length = clusters.length ∧
      ∀ i : Nat, i < clusters.length → elements[i]? = (clusters[i]?).map (convert ext) := by
  have hnone : clusters.findSome? (elementFailure ext) = none :=
    (findSome_elementFailure_none ext clusters).2 (fun c hc => ⟨hmap c hc, hobj c hc⟩)
  rw [ReadFromResponse_eq, hnone]
  obtain ⟨hl1, hl2⟩ := hlist
  refine ⟨by simp [hl1], clusters.map (convert ext), hl2, by simp, ?_⟩
  intro i _
  simp

/-- C1, run: three records (and no record) through the sample collaborators. -/
theorem ReadFromResponse_success_witness :
    ((ClustersDataSource.ReadFromResponse sampleCollaborators sampleData [1, 2, 3]).2 = [] ∧
      ∃ elements : List (Option Nat),
        (ClustersDataSource.ReadFromResponse sampleCollaborators sampleData [1, 2, 3]).1.Clusters
          = TList.known elements ∧
        elements.length = [1, 2, 3].length ∧
        ∀ i : Nat, i < [1, 2, 3].length →
          elements[i]? = (([1, 2, 3] : List Nat)[i]?).map (convert sampleCollaborators)) ∧
    (ClustersDataSource.ReadFromResponse sampleCollaborators sampleData [1, 2, 3]).1.Clusters
      = TList.known [some 10, some 20, some 30] ∧
    (ClustersDataSource.ReadFromResponse sampleCollaborators sampleData []).1.Clusters
      = TList.known [] :=
  ⟨ReadFromResponse_success sampleCollaborators sampleData [1, 2, 3]
      (by decide) (by decide) ⟨by decide, by decide⟩,
    by decide, by decide⟩

/-- C2. `ReadFromResponse` returns non-empty diagnostics exactly when some element
mapping, some element object conversion or the list assembly reports an error; the
diagnostics returned are those of the first failing step (lowest failing element,
mapping before conversion, list assembly last); and once an element has failed nothing
after it is processed: the result is the same whatever follows the failing element and
whatever the collaborators would answer on it. -/
theorem ReadFromResponse_first_failure {α β γ σ : Type} [Inhabited γ]
    (ext : Collaborators α β γ) (data : ClustersDataSource γ σ) (clusters : List α) :
    ((ClustersDataSource.ReadFromResponse ext data clusters).2 ≠ [] ↔
      ((∃ c ∈ clusters, mappingFails ext c = true ∨ conversionFails ext c = true) ∨
        listFails ext (clusters.map (convert ext)) = true)) ∧
    (ClustersDataSource.ReadFromResponse ext data clusters).2 =
      (firstFailingStep ext clusters).getD [] ∧
    (∀ (pre : List α) (x : α) (suf : List α) (d : Diagnostics),
      clusters = pre ++ x :: suf →
      (∀ c ∈ pre, mappingFails ext c = false ∧ conversionFails ext c = false) →
      elementFailure ext x = some d →
      ClustersDataSource.ReadFromResponse ext data clusters = (data, d) ∧
      ∀ (ext2 : Collaborators α β γ) (suf2 : List α),
        (∀ c ∈ pre ++ [x], AgreeOn ext ext2 c) →
        ClustersDataSource.ReadFromResponse ext2 data (pre ++ x :: suf2) = (data, d)) := by
  refine ⟨?_, ?_, ?_⟩
  · rw [ReadFromResponse_eq]
    cases hf : clusters.findSome? (elementFailure ext) with
    | some d =>
      obtain ⟨c, hc, hcd⟩ := List.exists_of_findSome?_eq_some hf
      have hd : d ≠ [] := ne_nil_of_hasError d (elementFailure_hasError ext c d hcd)
      constructor
      · intro _
        left
        refine ⟨c, hc, ?_⟩
        by_contra hno
        simp only [not_or, Bool.not_eq_true] at hno
        rw [(elementFailure_eq_none ext c).2 hno] at hcd
        exact Option.noConfusion hcd
      · intro _
        exact hd
    | none =>
      have hall := (findSome_elementFailure_none ext clusters).1 hf
      by_cases hl : listFails ext (clusters.map (convert ext)) = true
      · simp only [hl, if_true]
        constructor
        · intro _
          exact Or.inr trivial
        · intro _
          exact ne_nil_of_hasError _ hl
      · simp only [hl, if_false]
        constructor
        · intro h
          exact absurd rfl h
        · intro h
          rcases h with ⟨c, hc, hcf⟩ | h
          · have := hall c hc
            rcases hcf with hcf | hcf
            · rw [this.1] at hcf
              exact Bool.noConfusion hcf
            · rw [this.2] at hcf
              exact Bool.noConfusion hcf
          · exact absurd h (by simp)
  · rw [ReadFromResponse_eq]
    unfold firstFailingStep
    cases hf : clusters.findSome? (elementFailure ext) with
    | some d => rfl
    | none =>
      by_cases hl : listFails ext (clusters.map (convert ext)) = true
      · simp [hl]
      · simp [hl]
  · intro pre x suf d hcl hpre hx
    subst hcl
    refine ⟨?_, ?_⟩
    · rw [ReadFromResponse_eq, findSome_append_fail ext pre x suf d hpre hx]
    · intro ext2 suf2 hag
      have hel : ∀ c ∈ pre ++ [x], elementFailure ext2 c = elementFailure ext c := by
        intro c hc
        obtain ⟨h1, h2⟩ := hag c hc
        unfold elementFailure mappingFails conversionFails
        rw [h1, h2]
      have hpre2 : ∀ c ∈ pre, mappingFails ext2 c = false ∧ conversionFails ext2 c = false := by
        intro c hc
        rw [← elementFailure_eq_none, hel c (by simp [hc]), elementFailure_eq_none]
        exact hpre c hc
      have hx2 : elementFailure ext2 x = some d := by
        rw [hel x (by simp)]
        exact hx
      rw [ReadFromResponse_eq, findSome_append_fail ext2 pre x suf2 d hpre2 hx2]

/-- C2, run: record `0` fails element mapping after record `1` succeeded; its
diagnostics come back, whatever follows it and whoever would process what follows. -/
theorem ReadFromResponse_first_failure_witness :
    ClustersDataSource.ReadFromResponse sampleCollaborators sampleData [1, 0, 13] =
      (sampleData, [{ severity := Severity.Error, summary := "Error reading cluster" }]) ∧
    ClustersDataSource.ReadFromResponse otherCollaborators sampleData [1, 0, 50, 2] =
      (sampleData, [{ severity := Severity.Error, summary := "Error reading cluster" }]) := by
  have h := (ReadFromResponse_first_failure sampleCollaborators sampleData [1, 0, 13]).2.2
    [1] 0 [13] [{ severity := Severity.Error, summary := "Error reading cluster" }]
    rfl (by decide) (by decide)
  refine ⟨h.1, h.2 otherCollaborators [50, 2] ?_⟩
  intro c hc
  simp only [List.singleton_append, List.mem_cons, List.mem_singleton, List.not_mem_nil,
    or_false] at hc
  rcases hc with rfl | rfl
  · exact ⟨rfl, rfl⟩
  · exact ⟨rfl, rfl⟩

theorem mem_of_mapGet {V : Type} (m : GoMap V) (k : String) (v : V)
    (h : mapGet m k = some v) : (k, v) ∈ m := by
  induction m with
  | nil => exact Option.noConfusion h
  | cons e rest ih =>
    obtain ⟨k1, v1⟩ := e
    by_cases hk : k1 = k
    · subst hk
      simp only [mapGet, if_true] at h
      cases h
      exact List.mem_cons_self _ _
    · simp only [mapGet, if_neg hk] at h
      exact List.mem_cons_of_mem _ (ih h)

/-! ## The keys of the map literals -/

theorem mapKeys_CommonDeploymentResourceSchemaAttributes (p : Platform) :
    mapKeys (CommonDeploymentResourceSchemaAttributes p) =
      ["id", "name", "description", "created_at", "updated_at", "created_by", "updated_by",
       "workspace_id", "astro_runtime_version", "airflow_version", "namespace",
       "contact_emails", "executor", "scheduler_cpu", "scheduler_memory", "image_tag",
       "image_repository", "image_version", "environment_variables",
       "webserver_ingress_hostname", "webserver_url", "webserver_airflow_api_url", "status",
       "status_reason", "dag_tarball_version", "desired_dag_tarball_version",
       "is_cicd_enforced", "is_dag_deploy_enabled", "external_ips", "oidc_issuer_url",
       "workload_identity"] := rfl

theorem mapKeys_HostedDeploymentResourceSchemaAttributesLiteral (p : Platform) :
    mapKeys (HostedDeploymentResourceSchemaAttributesLiteral p) =
      ["worker_queues", "scheduler_size", "scheduler_replicas", "is_high_availability",
       "is_development_mode", "resource_quota_cpu", "resource_quota_memory",
       "default_task_pod_cpu", "default_task_pod_memory", "scaling_status", "scaling_spec"] := rfl

theorem mapKeys_StandardDeploymentResourceSchemaAttributesLiteral :
    mapKeys StandardDeploymentResourceSchemaAttributesLiteral =
      ["region", "cloud_provider"] := rfl

theorem mapKeys_DedicatedDeploymentResourceSchemaAttributesLiteral :
    mapKeys DedicatedDeploymentResourceSchemaAttributesLiteral =
      ["cluster_id", "region", "cloud_provider"] := rfl

theorem mapKeys_HybridDeploymentResourceSchemaAttributesLiteral :
    mapKeys HybridDeploymentResourceSchemaAttributesLiteral =
      ["cluster_id", "worker_queues", "scheduler_au", "scheduler_replicas", "region",
       "cloud_provider", "task_pod_node_pool_id"] := rfl

theorem mapKeys_DeploymentDataSourceSchemaAttributes :
    mapKeys DeploymentDataSourceSchemaAttributes =
      ["id", "name", "description", "created_at", "updated_at", "created_by", "updated_by",
       "workspace_id", "cluster_id", "region", "cloud_provider", "astro_runtime_version",
       "airflow_version", "namespace", "contact_emails", "executor", "scheduler_au",
       "scheduler_cpu", "scheduler_memory", "scheduler_replicas", "image_tag",
       "image_repository", "image_version", "environment_variables",
       "webserver_ingress_hostname", "webserver_url", "webserver_airflow_api_url", "status",
       "status_reason", "dag_tarball_version", "desired_dag_tarball_version",
       "worker_queues", "task_pod_node_pool_id", "is_cicd_enforced", "type",
       "is_dag_deploy_enabled", "scheduler_size", "is_high_availability",
       "is_development_mode", "workload_identity", "external_ips", "oidc_issuer_url",
       "resource_quota_cpu", "resource_quota_memory", "default_task_pod_cpu",
       "default_task_pod_memory", "scaling_status", "scaling_spec"] := rfl

theorem mapKeys_DeploymentEnvironmentVariableAttributeTypes :
    mapKeys DeploymentEnvironmentVariableAttributeTypes =
      ["key", "value", "updated_at", "is_secret"] := rfl

theorem mapKeys_DeploymentEnvironmentVariableDataSourceAttributes :
    mapKeys DeploymentEnvironmentVariableDataSourceAttributes =
      ["key", "value", "updated_at", "is_secret"] := rfl

theorem mapKeys_DeploymentEnvironmentVariableResourceAttributes :
    mapKeys DeploymentEnvironmentVariableResourceAttributes =
      ["key", "value", "updated_at", "is_secret"] := rfl

theorem mapKeys_CommonWorkerQueueAttributeTypes :
    mapKeys CommonWorkerQueueAttributeTypes =
      ["id", "name", "is_default", "max_worker_count", "min_worker_count", "pod_cpu",
       "pod_memory", "worker_concurrency"] := rfl

theorem mapKeys_WorkerQueueAttributeTypesLiteral :
    mapKeys WorkerQueueAttributeTypesLiteral =
      ["node_pool_id", "astro_machine"] := rfl

theorem mapKeys_HostedWorkerQueueAttributeTypesLiteral :
    mapKeys HostedWorkerQueueAttributeTypesLiteral =
      ["astro_machine"] := rfl

theorem mapKeys_HybridWorkerQueueAttributeTypesLiteral :
    mapKeys HybridWorkerQueueAttributeTypesLiteral =
      ["node_pool_id"] := rfl

theorem mapKeys_WorkerQueueDataSourceSchemaAttributes :
    mapKeys WorkerQueueDataSourceSchemaAttributes =
      ["id", "name", "astro_machine", "is_default", "max_worker_count", "min_worker_count",
       "node_pool_id", "pod_cpu", "pod_memory", "worker_concurrency"] := rfl

theorem mapKeys_CommonWorkerQueueResourceSchemaAttributes :
    mapKeys CommonWorkerQueueResourceSchemaAttributes =
      ["id", "name", "is_default", "max_worker_count", "min_worker_count", "pod_cpu",
       "pod_memory", "worker_concurrency"] := rfl

theorem mapKeys_HybridWorkerQueueResourceSchemaAttributesLiteral :
    mapKeys HybridWorkerQueueResourceSchemaAttributesLiteral =
      ["node_pool_id"] := rfl

theorem mapKeys_HostedWorkerQueueResourceSchemaAttributesLiteral (p : Platform) :
    mapKeys (HostedWorkerQueueResourceSchemaAttributesLiteral p) =
      ["astro_machine"] := rfl

/-! ## The builders as lists of entries -/

theorem nodup_CommonDeployment (p : Platform) :
    (mapKeys (CommonDeploymentResourceSchemaAttributes p)).Nodup := by
  rw [mapKeys_CommonDeploymentResourceSchemaAttributes]
  decide

theorem disjoint_Hosted_Common (p : Platform) :
    KeysDisjoint (HostedDeploymentResourceSchemaAttributesLiteral p)
      (CommonDeploymentResourceSchemaAttributes p) := by
  unfold KeysDisjoint
  rw [mapKeys_HostedDeploymentResourceSchemaAttributesLiteral,
    mapKeys_CommonDeploymentResourceSchemaAttributes]
  decide

theorem disjoint_Dedicated_Common (p : Platform) :
    KeysDisjoint DedicatedDeploymentResourceSchemaAttributesLiteral
      (CommonDeploymentResourceSchemaAttributes p) := by
  unfold KeysDisjoint
  rw [mapKeys_DedicatedDeploymentResourceSchemaAttributesLiteral,
    mapKeys_CommonDeploymentResourceSchemaAttributes]
  decide

theorem disjoint_Hybrid_Common (p : Platform) :
    KeysDisjoint HybridDeploymentResourceSchemaAttributesLiteral
      (CommonDeploymentResourceSchemaAttributes p) := by
  unfold KeysDisjoint
  rw [mapKeys_HybridDeploymentResourceSchemaAttributesLiteral,
    mapKeys_CommonDeploymentResourceSchemaAttributes]
  decide

/-- The hosted builder returns its literal followed by the common attributes. -/
theorem HostedDeployment_eq (p : Platform) :
    HostedDeploymentResourceSchemaAttributes p =
      HostedDeploymentResourceSchemaAttributesLiteral p ++
        CommonDeploymentResourceSchemaAttributes p :=
  Assign_pair_of_disjoint _ _
    (by rw [mapKeys_HostedDeploymentResourceSchemaAttributesLiteral]; decide)
    (nodup_CommonDeployment p) (disjoint_Hosted_Common p)

/-- The dedicated builder returns its literal followed by the common attributes. -/
theorem DedicatedDeployment_eq (p : Platform) :
    DedicatedDeploymentResourceSchemaAttributes p =
      DedicatedDeploymentResourceSchemaAttributesLiteral ++
        CommonDeploymentResourceSchemaAttributes p :=
  Assign_pair_of_disjoint _ _
    (by rw [mapKeys_DedicatedDeploymentResourceSchemaAttributesLiteral]; decide)
    (nodup_CommonDeployment p) (disjoint_Dedicated_Common p)

/-- The hybrid builder returns its literal followed by the common attributes. -/
theorem HybridDeployment_eq (p : Platform) :
    HybridDeploymentResourceSchemaAttributes p =
      HybridDeploymentResourceSchemaAttributesLiteral ++
        CommonDeploymentResourceSchemaAttributes p :=
  Assign_pair_of_disjoint _ _
    (by rw [mapKeys_HybridDeploymentResourceSchemaAttributesLiteral]; decide)
    (nodup_CommonDeployment p) (disjoint_Hybrid_Common p)

theorem mapKeys_HostedDeployment (p : Platform) :
    mapKeys (HostedDeploymentResourceSchemaAttributes p) =
      mapKeys (HostedDeploymentResourceSchemaAttributesLiteral p) ++
        mapKeys (CommonDeploymentResourceSchemaAttributes p) := by
  rw [HostedDeployment_eq, mapKeys_append]

theorem nodup_HostedDeployment (p : Platform) :
    (mapKeys (HostedDeploymentResourceSchemaAttributes p)).Nodup := by
  rw [mapKeys_HostedDeployment, mapKeys_HostedDeploymentResourceSchemaAttributesLiteral,
    mapKeys_CommonDeploymentResourceSchemaAttributes]
  decide

theorem disjoint_Standard_Hosted (p : Platform) :
    KeysDisjoint StandardDeploymentResourceSchemaAttributesLiteral
      (HostedDeploymentResourceSchemaAttributes p) := by
  unfold KeysDisjoint
  rw [mapKeys_HostedDeployment, mapKeys_HostedDeploymentResourceSchemaAttributesLiteral,
    mapKeys_CommonDeploymentResourceSchemaAttributes,
    mapKeys_StandardDeploymentResourceSchemaAttributesLiteral]
  decide

/-- The standard builder returns its literal followed by the hosted attributes. -/
theorem StandardDeployment_eq (p : Platform) :
    StandardDeploymentResourceSchemaAttributes p =
      StandardDeploymentResourceSchemaAttributesLiteral ++
        HostedDeploymentResourceSchemaAttributes p :=
  Assign_pair_of_disjoint _ _
    (by rw [mapKeys_StandardDeploymentResourceSchemaAttributesLiteral]; decide)
    (nodup_HostedDeployment p) (disjoint_Standard_Hosted p)

theorem nodup_CommonWorkerQueue :
    (mapKeys CommonWorkerQueueResourceSchemaAttributes).Nodup := by
  rw [mapKeys_CommonWorkerQueueResourceSchemaAttributes]
  decide

theorem disjoint_HostedWorkerQueue_Common (p : Platform) :
    KeysDisjoint (HostedWorkerQueueResourceSchemaAttributesLiteral p)
      CommonWorkerQueueResourceSchemaAttributes := by
  unfold KeysDisjoint
  rw [mapKeys_HostedWorkerQueueResourceSchemaAttributesLiteral,
    mapKeys_CommonWorkerQueueResourceSchemaAttributes]
  decide

theorem disjoint_HybridWorkerQueue_Common :
    KeysDisjoint HybridWorkerQueueResourceSchemaAttributesLiteral
      CommonWorkerQueueResourceSchemaAttributes := by
  unfold KeysDisjoint
  rw [mapKeys_HybridWorkerQueueResourceSchemaAttributesLiteral,
    mapKeys_CommonWorkerQueueResourceSchemaAttributes]
  decide

/-- The hosted worker-queue builder returns its literal followed by the common
worker-queue attributes. -/
theorem HostedWorkerQueue_eq (p : Platform) :
    HostedWorkerQueueResourceSchemaAttributes p =
      HostedWorkerQueueResourceSchemaAttributesLiteral p ++
        CommonWorkerQueueResourceSchemaAttributes :=
  Assign_pair_of_disjoint _ _
    (by rw [mapKeys_HostedWorkerQueueResourceSchemaAttributesLiteral]; decide)
    nodup_CommonWorkerQueue (disjoint_HostedWorkerQueue_Common p)

/-- The hybrid worker-queue builder returns its literal followed by the common
worker-queue attributes. -/
theorem HybridWorkerQueue_eq :
    HybridWorkerQueueResourceSchemaAttributes =
      HybridWorkerQueueResourceSchemaAttributesLiteral ++
        CommonWorkerQueueResourceSchemaAttributes :=
  Assign_pair_of_disjoint _ _
    (by rw [mapKeys_HybridWorkerQueueResourceSchemaAttributesLiteral]; decide)
    nodup_CommonWorkerQueue disjoint_HybridWorkerQueue_Common

theorem nodup_literal (p : Platform) (v : DeploymentVariant) :
    (mapKeys (v.literal p)).Nodup := by
  cases v
  · show (mapKeys StandardDeploymentResourceSchemaAttributesLiteral).Nodup
    rw [mapKeys_StandardDeploymentResourceSchemaAttributesLiteral]; decide
  · show (mapKeys DedicatedDeploymentResourceSchemaAttributesLiteral).Nodup
    rw [mapKeys_DedicatedDeploymentResourceSchemaAttributesLiteral]; decide
  · show (mapKeys (HostedDeploymentResourceSchemaAttributesLiteral p)).Nodup
    rw [mapKeys_HostedDeploymentResourceSchemaAttributesLiteral]; decide
  · show (mapKeys HybridDeploymentResourceSchemaAttributesLiteral).Nodup
    rw [mapKeys_HybridDeploymentResourceSchemaAttributesLiteral]; decide

theorem nodup_base (p : Platform) (v : DeploymentVariant) :
    (mapKeys (v.base p)).Nodup := by
  cases v
  · exact nodup_HostedDeployment p
  · exact nodup_CommonDeployment p
  · exact nodup_CommonDeployment p
  · exact nodup_CommonDeployment p

theorem disjoint_literal_base (p : Platform) (v : DeploymentVariant) :
    KeysDisjoint (v.literal p) (v.base p) := by
  cases v
  · exact disjoint_Standard_Hosted p
  · exact disjoint_Dedicated_Common p
  · exact disjoint_Hosted_Common p
  · exact disjoint_Hybrid_Common p

theorem attributes_eq_Assign (p : Platform) (v : DeploymentVariant) :
    v.attributes p = Assign [v.literal p, v.base p] := by
  cases v <;> rfl

/-- Every deployment variant builder returns its literal followed by its base map. -/
theorem attributes_eq_append (p : Platform) (v : DeploymentVariant) :
    v.attributes p = v.literal p ++ v.base p := by
  rw [attributes_eq_Assign]
  exact Assign_pair_of_disjoint _ _ (nodup_literal p v) (nodup_base p v)
    (disjoint_literal_base p v)

theorem nodup_workerQueue_literal (p : Platform) (w : WorkerQueueVariant) :
    (mapKeys (w.literal p)).Nodup := by
  cases w
  · show (mapKeys (HostedWorkerQueueResourceSchemaAttributesLiteral p)).Nodup
    rw [mapKeys_HostedWorkerQueueResourceSchemaAttributesLiteral]; decide
  · show (mapKeys HybridWorkerQueueResourceSchemaAttributesLiteral).Nodup
    rw [mapKeys_HybridWorkerQueueResourceSchemaAttributesLiteral]; decide

theorem disjoint_workerQueue_literal (p : Platform) (w : WorkerQueueVariant) :
    KeysDisjoint (w.literal p) CommonWorkerQueueResourceSchemaAttributes := by
  cases w
  · exact disjoint_HostedWorkerQueue_Common p
  · exact disjoint_HybridWorkerQueue_Common

theorem workerQueue_attributes_eq_Assign (p : Platform) (w : WorkerQueueVariant) :
    w.attributes p = Assign [w.literal p, CommonWorkerQueueResourceSchemaAttributes] := by
  cases w <;> rfl

/-! ## The schema builders: the claims -/

/-- C4. In each of the four deployment variant builders the variant-specific literal
and the base map it is merged with have disjoint key sets; the merged map lists no key
twice and its size is the sum of the sizes of the two merged maps. -/
theorem variant_merge_disjoint (p : Platform) (v : DeploymentVariant) :
    KeysDisjoint (v.literal p) (v.base p) ∧
    (mapKeys (v.attributes p)).Nodup ∧
    mapLen (v.attributes p) = mapLen (v.literal p) + mapLen (v.base p) := by
  refine ⟨disjoint_literal_base p v, ?_, ?_⟩
  · rw [attributes_eq_append, mapKeys_append]
    refine List.Nodup.append (nodup_literal p v) (nodup_base p v) ?_
    intro k hk hkb
    exact disjoint_literal_base p v k hk hkb
  · rw [attributes_eq_append]
    simp [mapLen]

/-- C5, the attribute that breaks it. In the hybrid variant `worker_queues` sets none
of `Required`, `Optional`, `Computed`, where the hosted variant sets `Optional`; every
other attribute of the four merged variant maps sets exactly one of the three. -/
theorem hybrid_worker_queues_requiredness (p : Platform) :
    (mapGet (HybridDeploymentResourceSchemaAttributes p) "worker_queues").map
        (fun a => (a.Required, a.Optional, a.Computed)) = some (false, false, false) ∧
    (mapGet (HostedDeploymentResourceSchemaAttributes p) "worker_queues").map
        (fun a => (a.Required, a.Optional, a.Computed)) = some (false, true, false) ∧
    ∀ (v : DeploymentVariant) (k : String) (a : Attribute),
      mapGet (v.attributes p) k = some a → requirednessCount a ≠ 1 →
        v = DeploymentVariant.Hybrid ∧ k = "worker_queues" := by
  refine ⟨?_, ?_, ?_⟩
  · rw [HybridDeployment_eq, mapGet_append]
    rfl
  · rw [HostedDeployment_eq, mapGet_append]
    rfl
  · intro v k a hget hcount
    have hmem : (k, a) ∈ v.attributes p := mem_of_mapGet _ k a hget
    have hfil : k ∈ ((v.attributes p).filter
        (fun e => decide (requirednessCount e.2 ≠ 1))).map Prod.fst := by
      refine List.mem_map.2 ⟨(k, a), ?_, rfl⟩
      exact List.mem_filter.2 ⟨hmem, by simpa using hcount⟩
    rw [attributes_eq_append, List.filter_append] at hfil
    cases v
    · have h0 : ((StandardDeploymentResourceSchemaAttributesLiteral.filter
          (fun e => decide (requirednessCount e.2 ≠ 1)) ++
          (HostedDeploymentResourceSchemaAttributes p).filter
            (fun e => decide (requirednessCount e.2 ≠ 1))).map Prod.fst) = [] := by
        rw [HostedDeployment_eq]
        rfl
      rw [show (DeploymentVariant.Standard.literal p) =
        StandardDeploymentResourceSchemaAttributesLiteral from rfl,
        show (DeploymentVariant.Standard.base p) =
        HostedDeploymentResourceSchemaAttributes p from rfl, h0] at hfil
      exact absurd hfil (List.not_mem_nil k)
    · have h0 : ((DedicatedDeploymentResourceSchemaAttributesLiteral.filter
          (fun e => decide (requirednessCount e.2 ≠ 1)) ++
          (CommonDeploymentResourceSchemaAttributes p).filter
            (fun e => decide (requirednessCount e.2 ≠ 1))).map Prod.fst) = [] := rfl
      rw [show (DeploymentVariant.Dedicated.literal p) =
        DedicatedDeploymentResourceSchemaAttributesLiteral from rfl,
        show (DeploymentVariant.Dedicated.base p) =
        CommonDeploymentResourceSchemaAttributes p from rfl, h0] at hfil
      exact absurd hfil (List.not_mem_nil k)
    · have h0 : (((HostedDeploymentResourceSchemaAttributesLiteral p).filter
          (fun e => decide (requirednessCount e.2 ≠ 1)) ++
          (CommonDeploymentResourceSchemaAttributes p).filter
            (fun e => decide (requirednessCount e.2 ≠ 1))).map Prod.fst) = [] := rfl
      rw [show (DeploymentVariant.Hosted.literal p) =
        HostedDeploymentResourceSchemaAttributesLiteral p from rfl,
        show (DeploymentVariant.Hosted.base p) =
        CommonDeploymentResourceSchemaAttributes p from rfl, h0] at hfil
      exact absurd hfil (List.not_mem_nil k)
    · have h0 : ((HybridDeploymentResourceSchemaAttributesLiteral.filter
          (fun e => decide (requirednessCount e.2 ≠ 1)) ++
          (CommonDeploymentResourceSchemaAttributes p).filter
            (fun e => decide (requirednessCount e.2 ≠ 1))).map Prod.fst) =
          ["worker_queues"] := rfl
      rw [show (DeploymentVariant.Hybrid.literal p) =
        HybridDeploymentResourceSchemaAttributesLiteral from rfl,
        show (DeploymentVariant.Hybrid.base p) =
        CommonDeploymentResourceSchemaAttributes p from rfl, h0] at hfil
      exact ⟨rfl, List.mem_singleton.1 hfil⟩

/-- C5, run on the sample platform: the one attribute of the hybrid map whose flag
count is not one is `worker_queues`. -/
theorem hybrid_worker_queues_requiredness_witness :
    ∃ a : Attribute,
      mapGet (DeploymentVariant.Hybrid.attributes samplePlatform) "worker_queues" = some a ∧
      requirednessCount a = 0 ∧
      (DeploymentVariant.Hybrid = DeploymentVariant.Hybrid ∧
        "worker_queues" = "worker_queues") := by
  have hget : mapGet (DeploymentVariant.Hybrid.attributes samplePlatform) "worker_queues" =
      some { kind := AttributeKind.ListNestedAttribute
               NestedAttributes.HybridWorkerQueueResourceSchemaAttributes,
             MarkdownDescription := "Deployment worker queues",
             ListValidators := [ListValidator.SizeAtLeast 1] } := by
    show mapGet (HybridDeploymentResourceSchemaAttributes samplePlatform) "worker_queues" = _
    rw [HybridDeployment_eq, mapGet_append]
    rfl
  exact ⟨_, hget, rfl,
    (hybrid_worker_queues_requiredness samplePlatform).2.2 DeploymentVariant.Hybrid
      "worker_queues" _ hget (by decide)⟩

/-- C6 as stated fails: `lo.Assign` of two maps that share the keys `region` and
`cloud_provider` returns a three-key map, in which `region` carries the entry of the
second map and the first map's different entry is gone. -/
theorem Assign_collision_overrides :
    SharesKey StandardDeploymentResourceSchemaAttributesLiteral
      DedicatedDeploymentResourceSchemaAttributesLiteral ∧
    mapKeys (Assign [StandardDeploymentResourceSchemaAttributesLiteral,
      DedicatedDeploymentResourceSchemaAttributesLiteral]) =
        ["region", "cloud_provider", "cluster_id"] ∧
    mapGet (Assign [StandardDeploymentResourceSchemaAttributesLiteral,
      DedicatedDeploymentResourceSchemaAttributesLiteral]) "region" =
        mapGet DedicatedDeploymentResourceSchemaAttributesLiteral "region" ∧
    mapGet StandardDeploymentResourceSchemaAttributesLiteral "region" ≠
      mapGet DedicatedDeploymentResourceSchemaAttributesLiteral "region" := by
  refine ⟨⟨"region", by decide, by decide⟩, by decide, by decide, by decide⟩

/-- C6, amended. `lo.Assign` of two attribute maps always returns a map; a key of the
second map carries the second map's entry, whether or not the first map has the key,
and any other key carries what the first map has for it. -/
theorem Assign_later_entry_wins (a b : GoMap Attribute)
    (ha : (mapKeys a).Nodup) (hb : (mapKeys b).Nodup) (k : String) :
    mapGet (Assign [a, b]) k = (mapGet b k).orElse (fun _ => mapGet a k) :=
  mapGet_Assign_pair a b ha hb k

/-- C6 amended, run: the `region` entry of the second map wins. -/
theorem Assign_later_entry_wins_witness :
    mapGet (Assign [StandardDeploymentResourceSchemaAttributesLiteral,
      DedicatedDeploymentResourceSchemaAttributesLiteral]) "region" =
      (mapGet DedicatedDeploymentResourceSchemaAttributesLiteral "region").orElse
        (fun _ => mapGet StandardDeploymentResourceSchemaAttributesLiteral "region") :=
  Assign_later_entry_wins StandardDeploymentResourceSchemaAttributesLiteral
    DedicatedDeploymentResourceSchemaAttributesLiteral (by decide) (by decide) "region"

/-- C7. For the four deployment builders and the two worker-queue builders, merging
the base map first and the variant literal second gives the same map as the order
written in the code: every key looks up the same, and the entries are the same up to
their order in the representation. -/
theorem variant_merge_order_independent (p : Platform) :
    (∀ v : DeploymentVariant,
      SameMap (Assign [v.base p, v.literal p]) (v.attributes p) ∧
      (Assign [v.base p, v.literal p]).Perm (v.attributes p)) ∧
    (∀ w : WorkerQueueVariant,
      SameMap (Assign [CommonWorkerQueueResourceSchemaAttributes, w.literal p])
        (w.attributes p) ∧
      (Assign [CommonWorkerQueueResourceSchemaAttributes, w.literal p]).Perm
        (w.attributes p)) := by
  constructor
  · intro v
    rw [attributes_eq_Assign]
    refine ⟨SameMap_Assign_swap _ _ (nodup_literal p v) (nodup_base p v)
      (disjoint_literal_base p v), ?_⟩
    rw [Assign_pair_of_disjoint _ _ (nodup_literal p v) (nodup_base p v)
        (disjoint_literal_base p v),
      Assign_pair_of_disjoint _ _ (nodup_base p v) (nodup_literal p v)
        (fun k hk hl => disjoint_literal_base p v k hl hk)]
    exact List.perm_append_comm
  · intro w
    rw [workerQueue_attributes_eq_Assign]
    refine ⟨SameMap_Assign_swap _ _ (nodup_workerQueue_literal p w) nodup_CommonWorkerQueue
      (disjoint_workerQueue_literal p w), ?_⟩
    rw [Assign_pair_of_disjoint _ _ (nodup_workerQueue_literal p w) nodup_CommonWorkerQueue
        (disjoint_workerQueue_literal p w),
      Assign_pair_of_disjoint _ _ nodup_CommonWorkerQueue (nodup_workerQueue_literal p w)
        (fun k hk hl => disjoint_workerQueue_literal p w k hl hk)]
    exact List.perm_append_comm

/-- C8. The `cloud_provider` attribute of the standard deployment schema accepts a
string exactly when it is `AWS`, `AZURE` or `GCP`; any other string is rejected with
the value-match (enum) diagnostic of `stringvalidator.OneOf`. -/
theorem standard_cloud_provider_oneOf (p : Platform) (chk : StringChecks) (s : String) :
    ∃ a : Attribute,
      mapGet (StandardDeploymentResourceSchemaAttributes p) "cloud_provider" = some a ∧
      (a.acceptsString chk s = true ↔ (s = "AWS" ∨ s = "AZURE" ∨ s = "GCP")) ∧
      a.validateString chk s =
        (if s = "AWS" ∨ s = "AZURE" ∨ s = "GCP" then [] else [InvalidAttributeValueMatch]) ∧
      a.acceptsString chk "AWS" = true ∧ a.acceptsString chk "AZURE" = true ∧
      a.acceptsString chk "GCP" = true := by
  refine ⟨_, by rw [StandardDeployment_eq, mapGet_append]; rfl, ?_, ?_, ?_, ?_, ?_⟩
  · by_cases h : s = "AWS" ∨ s = "AZURE" ∨ s = "GCP"
    · simp [Attribute.acceptsString, Attribute.validateString, StringValidator.validate,
        ClusterCloudProviderAWS, ClusterCloudProviderAZURE, ClusterCloudProviderGCP, h,
        HasError]
    · simp [Attribute.acceptsString, Attribute.validateString, StringValidator.validate,
        ClusterCloudProviderAWS, ClusterCloudProviderAZURE, ClusterCloudProviderGCP, h,
        HasError, InvalidAttributeValueMatch]
  · by_cases h : s = "AWS" ∨ s = "AZURE" ∨ s = "GCP"
    · simp [Attribute.validateString, StringValidator.validate,
        ClusterCloudProviderAWS, ClusterCloudProviderAZURE, ClusterCloudProviderGCP, h]
    · simp [Attribute.validateString, StringValidator.validate,
        ClusterCloudProviderAWS, ClusterCloudProviderAZURE, ClusterCloudProviderGCP, h]
  · rfl
  · rfl
  · rfl

theorem acceptsInt64_between (a : Attribute) (lo hi n : Int)
    (h : a.Int64Validators = [Int64Validator.Between lo hi]) :
    a.acceptsInt64 n = true ↔ lo ≤ n ∧ n ≤ hi := by
  by_cases hr : n < lo ∨ n > hi
  · have hno : ¬ (lo ≤ n ∧ n ≤ hi) := by omega
    simp [Attribute.acceptsInt64, Attribute.validateInt64, h, Int64Validator.validate, hr,
      HasError, InvalidAttributeValue, hno]
  · have hyes : lo ≤ n ∧ n ≤ hi := by omega
    simp [Attribute.acceptsInt64, Attribute.validateInt64, h, Int64Validator.validate, hr,
      HasError, hyes]

theorem acceptsInt64_atLeast (a : Attribute) (lo n : Int)
    (h : a.Int64Validators = [Int64Validator.AtLeast lo]) :
    a.acceptsInt64 n = true ↔ lo ≤ n := by
  by_cases hr : n < lo
  · have hno : ¬ lo ≤ n := by omega
    simp [Attribute.acceptsInt64, Attribute.validateInt64, h, Int64Validator.validate, hr,
      HasError, InvalidAttributeValue, hno]
  · have hyes : lo ≤ n := by omega
    simp [Attribute.acceptsInt64, Attribute.validateInt64, h, Int64Validator.validate, hr,
      HasError, hyes]

/-- C9. In the hybrid deployment schema, for every integer `n` (every `int64` among
them), `scheduler_au` is accepted exactly when `5 ≤ n ≤ 24` and `scheduler_replicas`
exactly when `1 ≤ n ≤ 4`; the bounds 5, 24, 1 and 4 are accepted; and both attributes
are in the merged map as the hybrid literal declares them. -/
theorem hybrid_scheduler_ranges (p : Platform) (n : Int) :
    ∃ au replicas : Attribute,
      mapGet (HybridDeploymentResourceSchemaAttributes p) "scheduler_au" = some au ∧
      mapGet HybridDeploymentResourceSchemaAttributesLiteral "scheduler_au" = some au ∧
      mapGet (HybridDeploymentResourceSchemaAttributes p) "scheduler_replicas"
        = some replicas ∧
      mapGet HybridDeploymentResourceSchemaAttributesLiteral "scheduler_replicas"
        = some replicas ∧
      (au.acceptsInt64 n = true ↔ 5 ≤ n ∧ n ≤ 24) ∧
      (replicas.acceptsInt64 n = true ↔ 1 ≤ n ∧ n ≤ 4) ∧
      au.acceptsInt64 5 = true ∧ au.acceptsInt64 24 = true ∧
      replicas.acceptsInt64 1 = true ∧ replicas.acceptsInt64 4 = true := by
  refine ⟨_, _, by rw [HybridDeployment_eq, mapGet_append]; rfl, rfl,
    by rw [HybridDeployment_eq, mapGet_append]; rfl, rfl, ?_, ?_, ?_, ?_, ?_, ?_⟩
  · exact acceptsInt64_between _ 5 24 n rfl
  · exact acceptsInt64_between _ 1 4 n rfl
  · exact (acceptsInt64_between _ 5 24 5 rfl).2 (by decide)
  · exact (acceptsInt64_between _ 5 24 24 rfl).2 (by decide)
  · exact (acceptsInt64_between _ 1 4 1 rfl).2 (by decide)
  · exact (acceptsInt64_between _ 1 4 4 rfl).2 (by decide)

/-- C10. In the hosted and in the hybrid worker-queue schema the three worker-count
attributes are the ones of the common worker-queue map, and for every integer `n`
(every `int64` among them) `min_worker_count` accepts `n` exactly when `n ≥ 0`,
`max_worker_count` exactly when `n ≥ 1`, `worker_concurrency` exactly when `n ≥ 1`. -/
theorem worker_queue_count_validators (p : Platform) (w : WorkerQueueVariant) (n : Int) :
    ∃ minCount maxCount concurrency : Attribute,
      mapGet (w.attributes p) "min_worker_count" = some minCount ∧
      mapGet CommonWorkerQueueResourceSchemaAttributes "min_worker_count" = some minCount ∧
      mapGet (w.attributes p) "max_worker_count" = some maxCount ∧
      mapGet CommonWorkerQueueResourceSchemaAttributes "max_worker_count" = some maxCount ∧
      mapGet (w.attributes p) "worker_concurrency" = some concurrency ∧
      mapGet CommonWorkerQueueResourceSchemaAttributes "worker_concurrency"
        = some concurrency ∧
      (minCount.acceptsInt64 n = true ↔ 0 ≤ n) ∧
      (maxCount.acceptsInt64 n = true ↔ 1 ≤ n) ∧
      (concurrency.acceptsInt64 n = true ↔ 1 ≤ n) := by
  have hmerge : ∀ k : String, mapGet (w.literal p) k = none →
      mapGet (w.attributes p) k = mapGet CommonWorkerQueueResourceSchemaAttributes k := by
    intro k hk
    rw [workerQueue_attributes_eq_Assign,
      Assign_pair_of_disjoint _ _ (nodup_workerQueue_literal p w) nodup_CommonWorkerQueue
        (disjoint_workerQueue_literal p w), mapGet_append, hk]
    rfl
  have hlit : ∀ k : String, k ∈ mapKeys CommonWorkerQueueResourceSchemaAttributes →
      mapGet (w.literal p) k = none := by
    intro k hk
    exact mapGet_eq_none_of_not_mem _ k
      (fun hl => disjoint_workerQueue_literal p w k hl hk)
  refine ⟨_, _, _, ?_, rfl, ?_, rfl, ?_, rfl, ?_, ?_, ?_⟩
  · rw [hmerge _ (hlit _ (by decide))]
    rfl
  · rw [hmerge _ (hlit _ (by decide))]
    rfl
  · rw [hmerge _ (hlit _ (by decide))]
    rfl
  · exact acceptsInt64_atLeast _ 0 n rfl
  · exact acceptsInt64_atLeast _ 1 n rfl
  · exact acceptsInt64_atLeast _ 1 n rfl

/-! ## Worker-queue placement fields, environment variables, frame -/

theorem mapKeys_HostedWorkerQueueResource (p : Platform) :
    mapKeys (HostedWorkerQueueResourceSchemaAttributes p) =
      "astro_machine" :: mapKeys CommonWorkerQueueResourceSchemaAttributes := by
  rw [HostedWorkerQueue_eq, mapKeys_append]
  rfl

theorem mapKeys_HybridWorkerQueueResource :
    mapKeys HybridWorkerQueueResourceSchemaAttributes =
      "node_pool_id" :: mapKeys CommonWorkerQueueResourceSchemaAttributes := by
  rw [HybridWorkerQueue_eq, mapKeys_append]
  rfl

theorem mapKeys_HostedWorkerQueueAttributeTypes :
    mapKeys HostedWorkerQueueAttributeTypes =
      "astro_machine" :: mapKeys CommonWorkerQueueAttributeTypes := by
  decide

theorem mapKeys_HybridWorkerQueueAttributeTypes :
    mapKeys HybridWorkerQueueAttributeTypes =
      "node_pool_id" :: mapKeys CommonWorkerQueueAttributeTypes := by
  decide

/-- Two key lists that differ in their head only hold the same keys apart from the
two heads. -/
theorem mem_cons_apart (x y : String) (l : List String) (hx : x ∉ l) (hy : y ∉ l)
    (k : String) : (k ∈ x :: l ∧ k ≠ x) ↔ (k ∈ y :: l ∧ k ≠ y) := by
  constructor
  · rintro ⟨hk, hne⟩
    rcases List.mem_cons.1 hk with h | h
    · exact absurd h hne
    · exact ⟨List.mem_cons_of_mem _ h, fun hky => hy (hky ▸ h)⟩
  · rintro ⟨hk, hne⟩
    rcases List.mem_cons.1 hk with h | h
    · exact absurd h hne
    · exact ⟨List.mem_cons_of_mem _ h, fun hkx => hx (hkx ▸ h)⟩

/-- C11. The hosted worker-queue resource schema and `HostedWorkerQueueAttributeTypes`
have `astro_machine` and lack `node_pool_id`; the hybrid worker-queue resource schema
and `HybridWorkerQueueAttributeTypes` have `node_pool_id` and lack `astro_machine`;
apart from that one field the hosted and the hybrid map have the same keys. -/
theorem worker_queue_placement_exclusive (p : Platform) :
    ("astro_machine" ∈ mapKeys (HostedWorkerQueueResourceSchemaAttributes p) ∧
      "node_pool_id" ∉ mapKeys (HostedWorkerQueueResourceSchemaAttributes p)) ∧
    ("astro_machine" ∈ mapKeys HostedWorkerQueueAttributeTypes ∧
      "node_pool_id" ∉ mapKeys HostedWorkerQueueAttributeTypes) ∧
    ("node_pool_id" ∈ mapKeys HybridWorkerQueueResourceSchemaAttributes ∧
      "astro_machine" ∉ mapKeys HybridWorkerQueueResourceSchemaAttributes) ∧
    ("node_pool_id" ∈ mapKeys HybridWorkerQueueAttributeTypes ∧
      "astro_machine" ∉ mapKeys HybridWorkerQueueAttributeTypes) ∧
    (∀ k : String,
      (k ∈ mapKeys (HostedWorkerQueueResourceSchemaAttributes p) ∧ k ≠ "astro_machine") ↔
      (k ∈ mapKeys HybridWorkerQueueResourceSchemaAttributes ∧ k ≠ "node_pool_id")) ∧
    (∀ k : String,
      (k ∈ mapKeys HostedWorkerQueueAttributeTypes ∧ k ≠ "astro_machine") ↔
      (k ∈ mapKeys HybridWorkerQueueAttributeTypes ∧ k ≠ "node_pool_id")) := by
  rw [mapKeys_HostedWorkerQueueResource, mapKeys_HybridWorkerQueueResource,
    mapKeys_HostedWorkerQueueAttributeTypes, mapKeys_HybridWorkerQueueAttributeTypes,
    mapKeys_CommonWorkerQueueResourceSchemaAttributes, mapKeys_CommonWorkerQueueAttributeTypes]
  refine ⟨by decide, by decide, by decide, by decide, ?_, ?_⟩
  · exact mem_cons_apart _ _ _ (by decide) (by decide)
  · exact mem_cons_apart _ _ _ (by decide) (by decide)

/-- C12, where it holds and where it breaks. Both environment-variable builders have
exactly the keys `key`, `value`, `is_secret`, `updated_at`; the resource builder marks
`value` sensitive, the data-source builder does not. -/
theorem environment_variable_value_sensitive :
    (∀ k : String, k ∈ mapKeys DeploymentEnvironmentVariableResourceAttributes ↔
      k ∈ ["key", "value", "is_secret", "updated_at"]) ∧
    (∀ k : String, k ∈ mapKeys DeploymentEnvironmentVariableDataSourceAttributes ↔
      k ∈ ["key", "value", "is_secret", "updated_at"]) ∧
    mapLen DeploymentEnvironmentVariableResourceAttributes = 4 ∧
    mapLen DeploymentEnvironmentVariableDataSourceAttributes = 4 ∧
    (mapGet DeploymentEnvironmentVariableResourceAttributes "value").map
      (fun a => a.Sensitive) = some true ∧
    (mapGet DeploymentEnvironmentVariableDataSourceAttributes "value").map
      (fun a => a.Sensitive) = some false := by
  refine ⟨?_, ?_, rfl, rfl, by decide, by decide⟩
  · intro k
    rw [mapKeys_DeploymentEnvironmentVariableResourceAttributes]
    simp only [List.mem_cons, List.mem_singleton, List.not_mem_nil, or_false]
    tauto
  · intro k
    rw [mapKeys_DeploymentEnvironmentVariableDataSourceAttributes]
    simp only [List.mem_cons, List.mem_singleton, List.not_mem_nil, or_false]
    tauto

/-- C15. Whatever the receiver and the input, and whether it succeeds or returns
diagnostics, `ReadFromResponse` leaves `CloudProvider` and `Names` as they were: the
receiver afterwards is the receiver before with at most `Clusters` replaced. -/
theorem ReadFromResponse_frame {α β γ σ : Type} [Inhabited γ] (ext : Collaborators α β γ)
    (data : ClustersDataSource γ σ) (clusters : List α) :
    (ClustersDataSource.ReadFromResponse ext data clusters).1.CloudProvider
      = data.CloudProvider ∧
    (ClustersDataSource.ReadFromResponse ext data clusters).1.Names = data.Names ∧
    (ClustersDataSource.ReadFromResponse ext data clusters).1 =
      { Clusters := (ClustersDataSource.ReadFromResponse ext data clusters).1.Clusters,
        CloudProvider := data.CloudProvider, Names := data.Names } := by
  rw [ReadFromResponse_eq]
  cases clusters.findSome? (elementFailure ext) with
  | some d => exact ⟨rfl, rfl, rfl⟩
  | none => exact ⟨rfl, rfl, rfl⟩

/-! ## Identifier validators and attribute-type maps -/

theorem allSchemas_requiredIdentifierChecked (p : Platform) (m : GoMap Attribute)
    (hm : m ∈ allSchemas p) : m.all requiredIdentifierChecked = true := by
  simp only [allSchemas, List.mem_cons, List.mem_singleton, List.not_mem_nil, or_false] at hm
  rcases hm with h | h | h | h | h | h | h | h | h | h | h | h
  · rw [h, StandardDeployment_eq, HostedDeployment_eq]
    rfl
  · rw [h, DedicatedDeployment_eq]
    rfl
  · rw [h, HostedDeployment_eq]
    rfl
  · rw [h, HybridDeployment_eq]
    rfl
  · rw [h]
    rfl
  · rw [h]
    rfl
  · rw [h]
    rfl
  · rw [h]
    rfl
  · rw [h]
    rfl
  · rw [h, HybridWorkerQueue_eq]
    rfl
  · rw [h, HostedWorkerQueue_eq]
    rfl
  · rw [h]
    rfl

theorem mapGet_workspace_id (p : Platform) (v : DeploymentVariant) :
    mapGet (v.attributes p) "workspace_id" =
      some { kind := AttributeKind.StringAttribute,
             MarkdownDescription := "Deployment workspace identifier", Required := true,
             StringValidators := [StringValidator.IsCuid] } := by
  have hc : mapGet (CommonDeploymentResourceSchemaAttributes p) "workspace_id" =
      some { kind := AttributeKind.StringAttribute,
             MarkdownDescription := "Deployment workspace identifier", Required := true,
             StringValidators := [StringValidator.IsCuid] } := rfl
  have hl : mapGet (HostedDeploymentResourceSchemaAttributesLiteral p) "workspace_id" = none :=
    rfl
  cases v
  · show mapGet (StandardDeploymentResourceSchemaAttributes p) "workspace_id" = _
    rw [StandardDeployment_eq, HostedDeployment_eq, mapGet_append, mapGet_append, hl, hc]
    rfl
  · show mapGet (DedicatedDeploymentResourceSchemaAttributes p) "workspace_id" = _
    rw [DedicatedDeployment_eq, mapGet_append, hc]
    rfl
  · show mapGet (HostedDeploymentResourceSchemaAttributes p) "workspace_id" = _
    rw [HostedDeployment_eq, mapGet_append, hl, hc]
    rfl
  · show mapGet (HybridDeploymentResourceSchemaAttributes p) "workspace_id" = _
    rw [HybridDeployment_eq, mapGet_append, hc]
    rfl

/-- C13. `workspace_id` in each of the four deployment resource variants, `cluster_id`
in the dedicated and hybrid variants, `node_pool_id` in the hybrid worker-queue schema
and `id` in the deployment data-source schema are Required and carry `IsCuid`; and in
every attribute map built in `deployment.go`, an attribute named as an identifier that is
Required carries `IsCuid`. -/
theorem required_identifiers_carry_IsCuid (p : Platform) :
    (∀ v : DeploymentVariant, ∃ a : Attribute,
      mapGet (v.attributes p) "workspace_id" = some a ∧ a.Required = true ∧
        StringValidator.IsCuid ∈ a.StringValidators) ∧
    (∃ a : Attribute,
      mapGet (DedicatedDeploymentResourceSchemaAttributes p) "cluster_id" = some a ∧
        a.Required = true ∧ StringValidator.IsCuid ∈ a.StringValidators) ∧
    (∃ a : Attribute,
      mapGet (HybridDeploymentResourceSchemaAttributes p) "cluster_id" = some a ∧
        a.Required = true ∧ StringValidator.IsCuid ∈ a.StringValidators) ∧
    (∃ a : Attribute,
      mapGet HybridWorkerQueueResourceSchemaAttributes "node_pool_id" = some a ∧
        a.Required = true ∧ StringValidator.IsCuid ∈ a.StringValidators) ∧
    (∃ a : Attribute,
      mapGet DeploymentDataSourceSchemaAttributes "id" = some a ∧
        a.Required = true ∧ StringValidator.IsCuid ∈ a.StringValidators) ∧
    (∀ m ∈ allSchemas p, ∀ (k : String) (a : Attribute),
      mapGet m k = some a → isIdentifierKey k = true → a.Required = true →
        StringValidator.IsCuid ∈ a.StringValidators) := by
  refine ⟨?_, ?_, ?_, ?_, ?_, ?_⟩
  · intro v
    exact ⟨_, mapGet_workspace_id p v, rfl, List.mem_singleton.2 rfl⟩
  · refine ⟨{ kind := AttributeKind.StringAttribute, Required := true,
              StringValidators := [StringValidator.IsCuid] }, ?_, rfl, List.mem_singleton.2 rfl⟩
    rw [DedicatedDeployment_eq, mapGet_append]
    rfl
  · refine ⟨{ kind := AttributeKind.StringAttribute, Required := true,
              StringValidators := [StringValidator.IsCuid] }, ?_, rfl, List.mem_singleton.2 rfl⟩
    rw [HybridDeployment_eq, mapGet_append]
    rfl
  · refine ⟨{ kind := AttributeKind.StringAttribute, Required := true,
              StringValidators := [StringValidator.IsCuid] }, ?_, rfl, List.mem_singleton.2 rfl⟩
    rw [HybridWorkerQueue_eq, mapGet_append]
    rfl
  · exact ⟨{ kind := AttributeKind.StringAttribute,
             MarkdownDescription := "Deployment identifier", Required := true,
             StringValidators := [StringValidator.IsCuid] }, rfl, rfl,
      List.mem_singleton.2 rfl⟩
  · intro m hm k a hget hid hreq
    have hall := allSchemas_requiredIdentifierChecked p m hm
    have he := List.all_eq_true.1 hall (k, a) (mem_of_mapGet m k a hget)
    simpa [requiredIdentifierChecked, hid, hreq, carriesIsCuid] using he

/-- C13, run on the sample platform: `node_pool_id` of the hybrid worker-queue schema
is an identifier, is Required, and so carries `IsCuid`. -/
theorem required_identifiers_carry_IsCuid_witness :
    HybridWorkerQueueResourceSchemaAttributes ∈ allSchemas samplePlatform ∧
    isIdentifierKey "node_pool_id" = true ∧
    StringValidator.IsCuid ∈
      ({ kind := AttributeKind.StringAttribute, Required := true,
         StringValidators := [StringValidator.IsCuid] } : Attribute).StringValidators :=
  ⟨by decide, by decide,
    (required_identifiers_carry_IsCuid samplePlatform).2.2.2.2.2
      HybridWorkerQueueResourceSchemaAttributes (by decide) "node_pool_id"
      { kind := AttributeKind.StringAttribute, Required := true,
        StringValidators := [StringValidator.IsCuid] }
      (by decide) (by decide) rfl⟩

theorem mapGet_map_eq_of_keys {A B C : Type} (m1 : GoMap A) (m2 : GoMap B)
    (f : A → C) (g : B → C)
    (hkeys : ∀ k : String, k ∈ mapKeys m1 ↔ k ∈ mapKeys m2)
    (hall : ∀ k ∈ mapKeys m1, (mapGet m1 k).map f = (mapGet m2 k).map g) (k : String) :
    (mapGet m1 k).map f = (mapGet m2 k).map g := by
  by_cases hk : k ∈ mapKeys m1
  · exact hall k hk
  · rw [mapGet_eq_none_of_not_mem m1 k hk,
      mapGet_eq_none_of_not_mem m2 k (fun h => hk ((hkeys k).2 h))]
    rfl

/-- C14. `WorkerQueueAttributeTypes` has exactly the keys of
`WorkerQueueDataSourceSchemaAttributes`, and `DeploymentEnvironmentVariableAttributeTypes`
exactly those of `DeploymentEnvironmentVariableDataSourceAttributes`; under every key the
attribute type is the semantic type of the schema attribute of that name. -/
theorem attribute_types_agree_with_data_source :
    (mapKeys WorkerQueueAttributeTypes).Nodup ∧
    (mapKeys WorkerQueueAttributeTypes).Perm (mapKeys WorkerQueueDataSourceSchemaAttributes) ∧
    (∀ k : String, (mapGet WorkerQueueAttributeTypes k).map AttrType.semantic =
      (mapGet WorkerQueueDataSourceSchemaAttributes k).map (fun a => a.kind.semantic)) ∧
    (mapKeys DeploymentEnvironmentVariableAttributeTypes).Nodup ∧
    (mapKeys DeploymentEnvironmentVariableAttributeTypes).Perm
      (mapKeys DeploymentEnvironmentVariableDataSourceAttributes) ∧
    (∀ k : String, (mapGet DeploymentEnvironmentVariableAttributeTypes k).map AttrType.semantic =
      (mapGet DeploymentEnvironmentVariableDataSourceAttributes k).map
        (fun a => a.kind.semantic)) := by
  have hp1 : (mapKeys WorkerQueueAttributeTypes).Perm
      (mapKeys WorkerQueueDataSourceSchemaAttributes) := by decide
  have hp2 : (mapKeys DeploymentEnvironmentVariableAttributeTypes).Perm
      (mapKeys DeploymentEnvironmentVariableDataSourceAttributes) := by decide
  refine ⟨by decide, hp1, ?_, by decide, hp2, ?_⟩
  · exact mapGet_map_eq_of_keys _ _ _ _ (fun k => hp1.mem_iff) (by decide)
  · exact mapGet_map_eq_of_keys _ _ _ _ (fun k => hp2.mem_iff) (by decide)

/-! ## Resource variants against the deployment data source -/

theorem all_inDataSource_Common (p : Platform) :
    (CommonDeploymentResourceSchemaAttributes p).all inDataSourceWithSameType = true := rfl

theorem all_inDataSource_HostedLiteral (p : Platform) :
    (HostedDeploymentResourceSchemaAttributesLiteral p).all inDataSourceWithSameType = true :=
  rfl

theorem all_inDataSource (p : Platform) (v : DeploymentVariant) :
    (v.attributes p).all inDataSourceWithSameType = true := by
  cases v
  · show (StandardDeploymentResourceSchemaAttributes p).all inDataSourceWithSameType = true
    rw [StandardDeployment_eq, HostedDeployment_eq, List.all_append, List.all_append,
      all_inDataSource_Common, all_inDataSource_HostedLiteral]
    rfl
  · show (DedicatedDeploymentResourceSchemaAttributes p).all inDataSourceWithSameType = true
    rw [DedicatedDeployment_eq, List.all_append, all_inDataSource_Common]
    rfl
  · show (HostedDeploymentResourceSchemaAttributes p).all inDataSourceWithSameType = true
    rw [HostedDeployment_eq, List.all_append, all_inDataSource_Common,
      all_inDataSource_HostedLiteral]
    rfl
  · show (HybridDeploymentResourceSchemaAttributes p).all inDataSourceWithSameType = true
    rw [HybridDeployment_eq, List.all_append, all_inDataSource_Common]
    rfl

theorem mapKeys_Standard (p : Platform) :
    mapKeys (StandardDeploymentResourceSchemaAttributes p) =
      mapKeys StandardDeploymentResourceSchemaAttributesLiteral ++
        (mapKeys (HostedDeploymentResourceSchemaAttributesLiteral p) ++
          mapKeys (CommonDeploymentResourceSchemaAttributes p)) := by
  rw [StandardDeployment_eq, mapKeys_append, mapKeys_HostedDeployment]

theorem mapKeys_Dedicated (p : Platform) :
    mapKeys (DedicatedDeploymentResourceSchemaAttributes p) =
      mapKeys DedicatedDeploymentResourceSchemaAttributesLiteral ++
        mapKeys (CommonDeploymentResourceSchemaAttributes p) := by
  rw [DedicatedDeployment_eq, mapKeys_append]

theorem mapKeys_Hybrid (p : Platform) :
    mapKeys (HybridDeploymentResourceSchemaAttributes p) =
      mapKeys HybridDeploymentResourceSchemaAttributesLiteral ++
        mapKeys (CommonDeploymentResourceSchemaAttributes p) := by
  rw [HybridDeployment_eq, mapKeys_append]

/-- No deployment resource variant has an attribute named `type`. -/
theorem type_not_in_variant (p : Platform) (v : DeploymentVariant) :
    "type" ∉ mapKeys (v.attributes p) := by
  cases v
  · show "type" ∉ mapKeys (StandardDeploymentResourceSchemaAttributes p)
    rw [mapKeys_Standard, mapKeys_StandardDeploymentResourceSchemaAttributesLiteral,
      mapKeys_HostedDeploymentResourceSchemaAttributesLiteral,
      mapKeys_CommonDeploymentResourceSchemaAttributes]
    decide
  · show "type" ∉ mapKeys (DedicatedDeploymentResourceSchemaAttributes p)
    rw [mapKeys_Dedicated, mapKeys_DedicatedDeploymentResourceSchemaAttributesLiteral,
      mapKeys_CommonDeploymentResourceSchemaAttributes]
    decide
  · show "type" ∉ mapKeys (HostedDeploymentResourceSchemaAttributes p)
    rw [mapKeys_HostedDeployment, mapKeys_HostedDeploymentResourceSchemaAttributesLiteral,
      mapKeys_CommonDeploymentResourceSchemaAttributes]
    decide
  · show "type" ∉ mapKeys (HybridDeploymentResourceSchemaAttributes p)
    rw [mapKeys_Hybrid, mapKeys_HybridDeploymentResourceSchemaAttributesLiteral,
      mapKeys_CommonDeploymentResourceSchemaAttributes]
    decide

/-- Every key of the data-source schema other than `type` is a key of the standard or
of the hybrid resource variant. -/
theorem dataSource_keys_covered (p : Platform) :
    ∀ k ∈ mapKeys DeploymentDataSourceSchemaAttributes,
      k = "type" ∨ k ∈ mapKeys (StandardDeploymentResourceSchemaAttributes p) ∨
        k ∈ mapKeys (HybridDeploymentResourceSchemaAttributes p) := by
  rw [mapKeys_Standard, mapKeys_Hybrid, mapKeys_StandardDeploymentResourceSchemaAttributesLiteral,
    mapKeys_HostedDeploymentResourceSchemaAttributesLiteral,
    mapKeys_HybridDeploymentResourceSchemaAttributesLiteral,
    mapKeys_CommonDeploymentResourceSchemaAttributes,
    mapKeys_DeploymentDataSourceSchemaAttributes]
  decide

theorem all_dataSourceRequiredness :
    DeploymentDataSourceSchemaAttributes.all dataSourceRequiredness = true := by
  decide

/-- C16. Every attribute name of a deployment resource variant is also in
`DeploymentDataSourceSchemaAttributes`, with the same semantic type; `type` is in the
data-source schema and in no resource variant, and it is the only such attribute; in the
data-source schema `id` is Required and every other attribute is Computed. -/
theorem resource_attributes_in_data_source (p : Platform) :
    (∀ (v : DeploymentVariant) (k : String) (a : Attribute),
      mapGet (v.attributes p) k = some a →
        ∃ d : Attribute, mapGet DeploymentDataSourceSchemaAttributes k = some d ∧
          d.kind.semantic = a.kind.semantic) ∧
    ("type" ∈ mapKeys DeploymentDataSourceSchemaAttributes ∧
      ∀ v : DeploymentVariant, mapGet (v.attributes p) "type" = none) ∧
    (∀ (k : String) (d : Attribute),
      mapGet DeploymentDataSourceSchemaAttributes k = some d →
        (∀ v : DeploymentVariant, mapGet (v.attributes p) k = none) → k = "type") ∧
    (∀ (k : String) (d : Attribute),
      mapGet DeploymentDataSourceSchemaAttributes k = some d →
        if k = "id" then d.Required = true ∧ d.Optional = false ∧ d.Computed = false
        else d.Computed = true ∧ d.Required = false ∧ d.Optional = false) := by
  refine ⟨?_, ⟨by decide, ?_⟩, ?_, ?_⟩
  · intro v k a hget
    have he := List.all_eq_true.1 (all_inDataSource p v) (k, a) (mem_of_mapGet _ k a hget)
    have hmap : (mapGet DeploymentDataSourceSchemaAttributes k).map (fun d => d.kind.semantic)
        = some a.kind.semantic := by
      simpa [inDataSourceWithSameType] using he
    cases hd : mapGet DeploymentDataSourceSchemaAttributes k with
    | none =>
      rw [hd] at hmap
      exact Option.noConfusion hmap
    | some d =>
      rw [hd] at hmap
      exact ⟨d, rfl, Option.some.inj hmap⟩
  · intro v
    exact mapGet_eq_none_of_not_mem _ _ (type_not_in_variant p v)
  · intro k d hget hnone
    have hk : k ∈ mapKeys DeploymentDataSourceSchemaAttributes :=
      mem_mapKeys_of_mapGet _ k d hget
    rcases dataSource_keys_covered p k hk with h | h | h
    · exact h
    · have hs := mapGet_isSome_of_mem _ k h
      have hn : mapGet (StandardDeploymentResourceSchemaAttributes p) k = none :=
        hnone DeploymentVariant.Standard
      rw [hn] at hs
      exact Bool.noConfusion hs
    · have hs := mapGet_isSome_of_mem _ k h
      have hn : mapGet (HybridDeploymentResourceSchemaAttributes p) k = none :=
        hnone DeploymentVariant.Hybrid
      rw [hn] at hs
      exact Bool.noConfusion hs
  · intro k d hget
    have he := List.all_eq_true.1 all_dataSourceRequiredness (k, d) (mem_of_mapGet _ k d hget)
    unfold dataSourceRequiredness at he
    by_cases hk : k = "id"
    · simp only [hk, if_true] at he ⊢
      simpa [and_assoc] using he
    · simp only [hk, if_false] at he ⊢
      simpa [and_assoc] using he

/-- C16, run on the sample platform: `scheduler_au` of the hybrid variant is an int64
attribute of the data-source schema too, and the data-source `id` is Required. -/
theorem resource_attributes_in_data_source_witness :
    (∃ d : Attribute, mapGet DeploymentDataSourceSchemaAttributes "scheduler_au" = some d ∧
      d.kind.semantic = SemanticType.int64) ∧
    (if "id" = "id" then
        ({ kind := AttributeKind.StringAttribute,
           MarkdownDescription := "Deployment identifier", Required := true,
           StringValidators := [StringValidator.IsCuid] } : Attribute).Required = true ∧
        ({ kind := AttributeKind.StringAttribute,
           MarkdownDescription := "Deployment identifier", Required := true,
           StringValidators := [StringValidator.IsCuid] } : Attribute).Optional = false ∧
        ({ kind := AttributeKind.StringAttribute,
           MarkdownDescription := "Deployment identifier", Required := true,
           StringValidators := [StringValidator.IsCuid] } : Attribute).Computed = false
      else
        ({ kind := AttributeKind.StringAttribute,
           MarkdownDescription := "Deployment identifier", Required := true,
           StringValidators := [StringValidator.IsCuid] } : Attribute).Computed = true ∧
        ({ kind := AttributeKind.StringAttribute,
           MarkdownDescription := "Deployment identifier", Required := true,
           StringValidators := [StringValidator.IsCuid] } : Attribute).Required = false ∧
        ({ kind := AttributeKind.StringAttribute,
           MarkdownDescription := "Deployment identifier", Required := true,
           StringValidators := [StringValidator.IsCuid] } : Attribute).Optional = false) :=
  ⟨(resource_attributes_in_data_source samplePlatform).1 DeploymentVariant.Hybrid
      "scheduler_au"
      { kind := AttributeKind.Int64Attribute,
        MarkdownDescription := "Deployment scheduler AU", Required := true,
        Int64Validators := [Int64Validator.Between 5 24] }
      (by decide),
    (resource_attributes_in_data_source samplePlatform).2.2.2 "id" _ (by decide)⟩

end Astro
